import Mathlib

/-!
Verification development for the VoodooRMI F11 touch-sensor driver core.

The definitions below are a shallow embedding of the two source files
`src/VoodooRMI/Functions/F11.cpp` and `src/VoodooRMI/RMI_2D_Sensor.cpp`:
pure C++ computations become Lean functions, the register bus becomes an
explicit oracle (`RmiBus`), fallible code returns `Except Int`, and the
multitouch state machine becomes an explicit state-transition function.
Machine integers are modelled as `Nat` (the C code never overflows on the
protocol-bounded inputs the theorems quantify over, and masking is kept
explicit where the source masks).

Constants from the repository's headers (`F11.hpp`, VoodooInput) are not
among the provided sources; they are modelled from the spec where needed
and marked as such in their doc comments.
-/

namespace VoodooRMI

/-- Round-up integer division, mirroring the kernel `DIV_ROUND_UP` macro
used by `f11_2d_construct_data`. -/
def DIV_ROUND_UP (n d : Nat) : Nat := (n + d - 1) / d

/-- The capability/query record `f11_2d_sensor_queries` filled in by
`rmi_f11_get_query_parameters` (F11.cpp lines 250-647).  Fields default to
zero/false, matching the zero-initialised C++ members: a sub-field whose
gating block was never read keeps its default. -/
structure F11SensorQuery where
  nr_fingers : Nat := 0
  has_rel : Bool := false
  has_abs : Bool := false
  has_gestures : Bool := false
  has_sensitivity_adjust : Bool := false
  configurable : Bool := false
  nr_x_electrodes : Nat := 0
  nr_y_electrodes : Nat := 0
  max_electrodes : Nat := 0
  abs_data_size : Nat := 0
  has_anchored_finger : Bool := false
  has_adj_hyst : Bool := false
  has_dribble : Bool := false
  has_bending_correction : Bool := false
  has_large_object_suppression : Bool := false
  has_jitter_filter : Bool := false
  f11_2d_query6 : Nat := 0
  has_single_tap : Bool := false
  has_tap_n_hold : Bool := false
  has_double_tap : Bool := false
  has_early_tap : Bool := false
  has_flick : Bool := false
  has_press : Bool := false
  has_pinch : Bool := false
  has_chiral : Bool := false
  has_palm_det : Bool := false
  has_rotate : Bool := false
  has_touch_shapes : Bool := false
  has_scroll_zones : Bool := false
  has_individual_scroll_zones : Bool := false
  has_mf_scroll : Bool := false
  has_mf_edge_motion : Bool := false
  has_mf_scroll_inertia : Bool := false
  query7_nonzero : Bool := false
  query8_nonzero : Bool := false
  has_pen : Bool := false
  has_proximity : Bool := false
  has_palm_det_sensitivity : Bool := false
  has_suppress_on_palm_detect : Bool := false
  has_two_pen_thresholds : Bool := false
  has_contact_geometry : Bool := false
  has_pen_hover_discrimination : Bool := false
  has_pen_filters : Bool := false
  nr_touch_shapes : Nat := 0
  has_z_tuning : Bool := false
  has_algorithm_selection : Bool := false
  has_w_tuning : Bool := false
  has_pitch_info : Bool := false
  has_finger_size : Bool := false
  has_segmentation_aggressiveness : Bool := false
  has_XY_clip : Bool := false
  has_drumming_filter : Bool := false
  has_gapless_finger : Bool := false
  has_gapless_finger_tuning : Bool := false
  has_8bit_w : Bool := false
  has_adjustable_mapping : Bool := false
  has_info2 : Bool := false
  has_physical_props : Bool := false
  has_finger_limit : Bool := false
  has_linear_coeff_2 : Bool := false
  jitter_window_size : Nat := 0
  jitter_filter_type : Nat := 0
  light_control : Nat := 0
  is_clear : Bool := false
  clickpad_props : Nat := 0
  mouse_buttons : Nat := 0
  has_advanced_gestures : Bool := false
  x_sensor_size_mm : Nat := 0
  y_sensor_size_mm : Nat := 0
  deriving DecidableEq

/-- The packet-layout scalars computed once at initialization and stored on
the `RMI2DSensor` object (`nbr_fingers`, `pkt_size`, `attn_size`, and the
byte offset of the absolute-position region inside the packet). -/
structure RMI2DSensorLayout where
  nbr_fingers : Nat
  pkt_size : Nat
  attn_size : Nat
  abs_pos_offset : Nat
  deriving DecidableEq

/-- `F11::f11_2d_construct_data` (F11.cpp lines 193-245): the packet layout
computed from the capability record.  `attn_size` starts from the
zero-initialised member and is only assigned inside the `has_abs` branch,
exactly as in the source; the buffer allocation itself (`IOMalloc`) is not
modelled (it is assumed to succeed).  `abs_pos_offset` is the offset stored
into `data->abs_pos` (the bitmap `f_state` region sits at offset 0). -/
def f11_2d_construct_data (query : F11SensorQuery) : RMI2DSensorLayout :=
  let nbr_fingers := if query.nr_fingers = 5 then 10 else query.nr_fingers + 1
  let pkt_size := DIV_ROUND_UP nbr_fingers 4
  let attn_size := 0
  let pkt_size := if query.has_abs then pkt_size + nbr_fingers * 5 else pkt_size
  let attn_size := if query.has_abs then pkt_size else attn_size
  let pkt_size := if query.has_rel then pkt_size + nbr_fingers * 2 else pkt_size
  let pkt_size := if query.query7_nonzero then pkt_size + 1 else pkt_size
  let pkt_size := if query.query7_nonzero || query.query8_nonzero then pkt_size + 1
    else pkt_size
  let pkt_size :=
    if query.has_pinch || query.has_flick || query.has_rotate then
      let p := pkt_size + 3
      let p := if !query.has_flick then p - 1 else p
      if !query.has_rotate then p - 1 else p
    else pkt_size
  let pkt_size := if query.has_touch_shapes then
      pkt_size + DIV_ROUND_UP (query.nr_touch_shapes + 1) 8
    else pkt_size
  { nbr_fingers := nbr_fingers
    pkt_size := pkt_size
    attn_size := attn_size
    abs_pos_offset := DIV_ROUND_UP nbr_fingers 4 }

/-- The complete layout computation performed by `rmi_f11_initialize`:
`f11_2d_construct_data` followed by the advanced-coordinate-mode adjustment
`if (has_acm) sensor->attn_size += sensor->nbr_fingers * 2;`
(F11.cpp lines 714-721).  `has_acm` is the F11 member set during the query
negotiation. -/
def rmi_f11_layout (query : F11SensorQuery) (has_acm : Bool) : RMI2DSensorLayout :=
  let s := f11_2d_construct_data query
  if has_acm then { s with attn_size := s.attn_size + s.nbr_fingers * 2 } else s

/-- Modelled from the spec: the closed-form packet-layout rules exactly as
the spec states them ("resolved finger count = (code == 5 ? 10 : code + 1);
bitmap bytes = ceil(count/4); ..."), written independently of the source
control flow so the two can be compared. -/
def packetLayoutSpec (query : F11SensorQuery) (has_acm : Bool) : RMI2DSensorLayout :=
  let count := if query.nr_fingers = 5 then 10 else query.nr_fingers + 1
  let bitmap := (count + 3) / 4
  { nbr_fingers := count
    pkt_size := bitmap
      + (if query.has_abs then count * 5 else 0)
      + (if query.has_rel then count * 2 else 0)
      + (if query.query7_nonzero then 1 else 0)
      + (if query.query7_nonzero || query.query8_nonzero then 1 else 0)
      + (if query.has_pinch || query.has_flick || query.has_rotate then
          3 - (if query.has_flick then 0 else 1) - (if query.has_rotate then 0 else 1)
        else 0)
      + (if query.has_touch_shapes then (query.nr_touch_shapes + 1 + 7) / 8 else 0)
    attn_size := (if query.has_abs then bitmap + count * 5 else 0)
      + (if has_acm then count * 2 else 0)
    abs_pos_offset := bitmap }

-- Helper: the source layout computation agrees with the spec's closed-form
-- rules on every capability record.
set_option maxHeartbeats 4000000 in
theorem rmi_f11_layout_eq_spec (query : F11SensorQuery) (has_acm : Bool) :
    rmi_f11_layout query has_acm = packetLayoutSpec query has_acm := by
  cases has_acm <;>
  cases h1 : query.has_abs <;> cases h2 : query.has_rel <;>
  cases h3 : query.query7_nonzero <;> cases h4 : query.query8_nonzero <;>
  cases h5 : query.has_pinch <;> cases h6 : query.has_flick <;>
  cases h7 : query.has_rotate <;> cases h8 : query.has_touch_shapes <;>
  simp only [rmi_f11_layout, f11_2d_construct_data, packetLayoutSpec, DIV_ROUND_UP,
    h1, h2, h3, h4, h5, h6, h7, h8, Bool.or_false, Bool.or_true, Bool.false_or,
    Bool.true_or, Bool.not_true, Bool.not_false, Bool.false_eq_true, Bool.true_eq_false,
    eq_self_iff_true, if_true, if_false, ite_true, ite_false,
    RMI2DSensorLayout.mk.injEq] <;>
  (repeat' apply And.intro) <;> trivial

/-- Claim C5: for every capability record the packet-layout calculator produces
exactly the stated rules — resolved finger count `(code == 5 ? 10 : code + 1)`,
`ceil(count/4)` bitmap bytes, `count*5` bytes with attention-size set to the
running total when absolute is supported, `count*2` bytes when relative is
supported, one byte when query 7 was nonzero plus one more when query 7 or 8
was nonzero, `3 - [no flick] - [no rotate]` bytes when pinch/flick/rotate is
present, `ceil((shape_count+1)/8)` bytes for touch shapes, and `count*2` bytes
added to the attention size only (not the packet size) when the
advanced-coordinate-mode bit was negotiated. -/
theorem claim_C5_layout_rules (query : F11SensorQuery) (has_acm : Bool) :
    rmi_f11_layout query has_acm = packetLayoutSpec query has_acm :=
  rmi_f11_layout_eq_spec query has_acm

/-- Claim C1 counterexample: a protocol-consistent capability record (absolute
support present, finger-count code 2 which is at most 5, every gated sub-field
at its inactive default) for which the advanced-coordinate-mode bit was set
during negotiation yields attention size 22 but packet size 16 — the claimed
invariant `attention_size ≤ packet_size` fails in exactly the ACM case the
claim includes. -/
theorem claim_C1_counterexample :
    (rmi_f11_layout { nr_fingers := 2, has_abs := true } true).attn_size >
      (rmi_f11_layout { nr_fingers := 2, has_abs := true } true).pkt_size := by
  decide

/-- Claim C1 (amended): for every capability record with absolute support the
packet layout is a deterministic function of the record (both sizes are
computed by the pure function `rmi_f11_layout`), and
`attention_size ≤ packet_size` holds whenever the advanced-coordinate-mode bit
was not set during negotiation, or relative reporting is also supported; when
ACM was negotiated without relative support the attention size can exceed the
packet size (see the counterexample). -/
theorem claim_C1_attn_le_pkt (query : F11SensorQuery) (has_acm : Bool)
    (habs : query.has_abs = true)
    (hacm : has_acm = false ∨ query.has_rel = true) :
    (rmi_f11_layout query has_acm).attn_size ≤
      (rmi_f11_layout query has_acm).pkt_size := by
  rw [rmi_f11_layout_eq_spec]
  rcases hacm with h | h <;>
    simp only [packetLayoutSpec, habs, h, if_true, if_false, ite_true, ite_false,
      Bool.false_eq_true] <;>
    split_ifs <;> omega

/-- Claim C1 witness: the amended theorem applied at a concrete record. -/
theorem claim_C1_witness :
    ({ nr_fingers := 2, has_abs := true } : F11SensorQuery).has_abs = true ∧
    (rmi_f11_layout { nr_fingers := 2, has_abs := true } false).attn_size ≤
      (rmi_f11_layout { nr_fingers := 2, has_abs := true } false).pkt_size :=
  ⟨by decide, claim_C1_attn_le_pkt { nr_fingers := 2, has_abs := true } false
    (by decide) (Or.inl rfl)⟩

/-- Modelled from the spec: the 5-byte absolute-data record size
(`RMI_F11_ABS_BYTES`, a constant of the `F11.hpp` header that is not among
the provided sources; the spec fixes the absolute record at 5 bytes). -/
def RMI_F11_ABS_BYTES : Nat := 5

/-- The slot-count computation of `F11::getReport` (F11.cpp lines 132-136):
`abs_size = sensor->nbr_fingers & RMI_F11_ABS_BYTES;` — note the bitwise
`&` — followed by `fingers = abs_size > pkt_size ? pkt_size / 5 : nbr_fingers`. -/
def getReport_fingers (nbr_fingers pkt_size : Nat) : Nat :=
  let abs_size := nbr_fingers &&& RMI_F11_ABS_BYTES
  if abs_size > pkt_size then pkt_size / RMI_F11_ABS_BYTES else nbr_fingers

/-- Claim C2 (code bug): at the capability/packet-size mismatch the defensive
clamp exists to protect against — resolved finger count 10 with a 7-byte
packet — the code decodes 10 slots whereas `min(resolved, packet/5)` is 1.
The cause is `nbr_fingers & RMI_F11_ABS_BYTES` (bitwise AND, evaluating to
`10 & 5 = 0`), a slip for the multiplication `nbr_fingers * 5` used by the
upstream Linux driver, so the comparison `abs_size > pkt_size` never fires. -/
theorem claim_C2_code_bug_eval :
    getReport_fingers 10 7 = 10 ∧ min 10 (7 / 5) = 1 ∧
      10 &&& RMI_F11_ABS_BYTES = 0 := by
  decide

/-- The five data fields of one decoded absolute-position record. -/
structure F11AbsRecord where
  x : Nat
  y : Nat
  z : Nat
  wx : Nat
  wy : Nat
  deriving DecidableEq

/-- One 5-byte absolute-data record (`pos_data[0..4]` in `F11::getReport`). -/
structure F11AbsBytes where
  pos0 : Nat
  pos1 : Nat
  pos2 : Nat
  pos3 : Nat
  pos4 : Nat
  deriving DecidableEq

/-- The absolute-record field extraction of `F11::getReport`
(F11.cpp lines 148-152):
`x = (pos_data[0] << 4) | (pos_data[2] & 0x0F)`,
`y = (pos_data[1] << 4) | (pos_data[2] >> 4)`,
`z = pos_data[4]`, `wx = pos_data[3] & 0x0f`, `wy = pos_data[3] >> 4`. -/
def f11_abs_decode (b : F11AbsBytes) : F11AbsRecord :=
  { x := (b.pos0 <<< 4) ||| (b.pos2 &&& 0x0F)
    y := (b.pos1 <<< 4) ||| (b.pos2 >>> 4)
    z := b.pos4
    wx := b.pos3 &&& 0x0F
    wy := b.pos3 >>> 4 }

/-- Modelled from the spec: the inverse packing of the 5-byte absolute
layout (the driver only decodes; the spec's round-trip property defines the
encoder as the layout's inverse — high 8 bits of X in byte 0, high 8 bits of
Y in byte 1, the two low nibbles in byte 2, the width nibbles in byte 3, Z
in byte 4). -/
def f11_abs_encode (r : F11AbsRecord) : F11AbsBytes :=
  { pos0 := r.x >>> 4
    pos1 := r.y >>> 4
    pos2 := ((r.y &&& 0x0F) <<< 4) ||| (r.x &&& 0x0F)
    pos3 := (r.wy <<< 4) ||| r.wx
    pos4 := r.z }

/-- Claim C7: the 5-byte absolute-record decoding is given by the stated
nibble formulas, hence encoding arbitrary X in [0,4095], Y in [0,4095],
Z in [0,255], wx and wy in [0,15] into the 5-byte layout and decoding
recovers exactly the original values. -/
theorem claim_C7_abs_roundtrip (r : F11AbsRecord) (hx : r.x < 4096)
    (hy : r.y < 4096) (hz : r.z < 256) (hwx : r.wx < 16) (hwy : r.wy < 16) :
    f11_abs_decode (f11_abs_encode r) = r := by
  obtain ⟨x, y, z, wx, wy⟩ := r
  simp only at hx hy hz hwx hwy
  have hand15 : ∀ a : Nat, a &&& 15 = a % 16 := by
    intro a
    have h := Nat.and_pow_two_sub_one_eq_mod a 4
    norm_num at h
    exact h
  have hshr : ∀ a : Nat, a >>> 4 = a / 16 := by
    intro a
    rw [Nat.shiftRight_eq_div_pow]
  have hor : ∀ a b : Nat, b < 16 → (a <<< 4) ||| b = 16 * a + b := by
    intro a b hb
    have h2 : b < 2 ^ 4 := by simpa using hb
    have h3 := Nat.mul_add_lt_is_or h2 a
    rw [Nat.shiftLeft_eq, Nat.mul_comm a (2 ^ 4), ← h3]
  have hb2 : ((y &&& 15) <<< 4) ||| (x &&& 15) = 16 * (y % 16) + x % 16 := by
    rw [hand15, hand15, hor _ _ (by omega)]
  simp only [f11_abs_encode, f11_abs_decode, F11AbsRecord.mk.injEq]
  refine ⟨?_, ?_, trivial, ?_, ?_⟩
  · rw [hb2, hand15, hshr, hor _ _ (by omega)]
    omega
  · rw [hb2, hshr, hshr, hor _ _ (by omega)]
    omega
  · rw [hor _ _ hwx, hand15]
    omega
  · rw [hor _ _ hwx, hshr]
    omega

/-- Claim C7 witness: the round trip evaluated at X = 4095, Y = 7, Z = 255,
wx = 3, wy = 9. -/
theorem claim_C7_witness :
    (4095 < 4096 ∧ 7 < 4096 ∧ 255 < 256 ∧ 3 < 16 ∧ 9 < 16) ∧
    f11_abs_decode (f11_abs_encode ⟨4095, 7, 255, 3, 9⟩) = ⟨4095, 7, 255, 3, 9⟩ :=
  ⟨by decide, claim_C7_abs_roundtrip ⟨4095, 7, 255, 3, 9⟩ (by decide) (by decide)
    (by decide) (by decide) (by decide)⟩

/-- Modelled from the spec: the host finger-type identities (the VoodooInput
`MT2FingerType` enumeration is declared in a header that is not among the
provided sources; the spec lists {undefined, thumb, index, middle, ring,
pinky-equivalents}).  The constructor order below is the numeric order the
allocation loop of `getFingerType` iterates over. -/
inductive MT2FingerType
  | undefined
  | thumb
  | indexFinger
  | middleFinger
  | ringFinger
  | littleFinger
  deriving DecidableEq, Fintype

/-- Modelled from the spec: the coarse contact type tag {none, finger,
stylus} of a decoded object (enumeration from the missing sensor header). -/
inductive RMI2DObjectType
  | objNone
  | finger
  | stylus
  deriving DecidableEq

/-- One decoded contact of a report (`rmi_2d_sensor_abs_object`), as filled
in by `F11::getReport`.  Defaults model the zeroed report structure. -/
structure rmi_2d_sensor_abs_object where
  type : RMI2DObjectType := RMI2DObjectType.objNone
  x : Nat := 0
  y : Nat := 0
  z : Nat := 0
  wx : Nat := 0
  wy : Nat := 0
  deriving DecidableEq

instance : Inhabited rmi_2d_sensor_abs_object := ⟨{}⟩

/-- The host-facing transducer slot state mutated by
`RMI2DSensor::handleReport` (fields of the VoodooInput transducer that the
driver writes and that the claims concern; the floating-point width field
`z / 1.5` and timestamps are not modelled, no claim mentions them).
Defaults model the zero-initialised slot array. -/
structure VoodooInputTransducer where
  fingerType : MT2FingerType := MT2FingerType.undefined
  isValid : Bool := false
  currX : Nat := 0
  currY : Nat := 0
  prevX : Nat := 0
  prevY : Nat := 0
  pressure : Nat := 0
  isPhysicalButtonDown : Bool := false
  deriving DecidableEq

/-- Configuration of the 2D sensor loaded in `RMI2DSensor::init`, plus the
`max_y` control value read at initialization. -/
structure RMI2DSensorConfig where
  max_y : Nat := 0
  forceTouchMinPressure : Nat := 80
  forceTouchEmulation : Bool := true
  deriving DecidableEq

/-- The persistent multitouch state: the free finger-type pool
(`freeFingerTypes`), the transducer slots (`inputEvent.transducers`), and the
force-touch pressure lock. -/
structure RMI2DSensorState where
  freeFingerTypes : MT2FingerType → Bool
  transducers : List VoodooInputTransducer
  pressureLock : Bool

/-- Functional update of the free-type pool (one cell of the C array). -/
def setFree (free : MT2FingerType → Bool) (ty : MT2FingerType) (b : Bool) :
    MT2FingerType → Bool :=
  fun u => if u = ty then b else free u

/-- The pool as established by `RMI2DSensor::start` (RMI_2D_Sensor.cpp lines
41-42): every type free except `undefined`. -/
def initialFreeFingerTypes : MT2FingerType → Bool :=
  fun ty => ty != MT2FingerType.undefined

/-- `RMI2DSensor::getFingerType` (RMI_2D_Sensor.cpp lines 223-233): scan the
non-thumb identities in ascending numeric order starting at the index
finger, claim and return the first free one; return `undefined` with the
pool unchanged when none is free. -/
def getFingerType (free : MT2FingerType → Bool) :
    MT2FingerType × (MT2FingerType → Bool) :=
  match [MT2FingerType.indexFinger, MT2FingerType.middleFinger,
         MT2FingerType.ringFinger, MT2FingerType.littleFinger].find? free with
  | some ty => (ty, setFree free ty false)
  | none => (MT2FingerType.undefined, free)

/-- The decoded-type validity test of `handleReport` (line 122):
`obj.type == RMI_2D_OBJECT_FINGER || obj.type == RMI_2D_OBJECT_STYLUS`. -/
def isReportedFinger (obj : rmi_2d_sensor_abs_object) : Bool :=
  obj.type == RMI2DObjectType.finger || obj.type == RMI2DObjectType.stylus

/-- The body of the first `handleReport` loop for one contact
(RMI_2D_Sensor.cpp lines 119-163), threading the running
`realFingerCount` and `pressureLock`: validity from the decoded type, the
palm-rejection check `z < 120 && abs(wx - wy) < 3`, the lock clear when the
running count differs from 1, the position update (frozen to the previous
coordinates while the lock is engaged), the lock engage on
`clickpad && emulation && z > threshold`, and the pressure/button outputs. -/
def handleReportContact (conf : RMI2DSensorConfig) (clickpadState : Bool)
    (obj : rmi_2d_sensor_abs_object) (trans : VoodooInputTransducer)
    (realFingerCount : Nat) (pressureLock : Bool) :
    VoodooInputTransducer × Nat × Bool :=
  let isValid := isReportedFinger obj
  let trans := { trans with isValid := isValid }
  if isValid then
    let realFingerCount := realFingerCount + 1
    let trans := { trans with
      isValid := decide (obj.z < 120) &&
        decide (((obj.wx : Int) - (obj.wy : Int)).natAbs < 3)
      prevX := trans.currX
      prevY := trans.currY }
    let pressureLock := if realFingerCount ≠ 1 then false else pressureLock
    let trans :=
      if !pressureLock then
        { trans with currX := obj.x, currY := conf.max_y - obj.y }
      else
        { trans with currX := trans.prevX, currY := trans.prevY }
    let pressureLock :=
      if clickpadState && conf.forceTouchEmulation &&
          decide (obj.z > conf.forceTouchMinPressure) then true
      else pressureLock
    let trans := { trans with
      pressure := if pressureLock then 255 else 0
      isPhysicalButtonDown := clickpadState && !pressureLock }
    (trans, realFingerCount, pressureLock)
  else
    (trans, realFingerCount, pressureLock)

/-- The first `handleReport` loop (lines 119-164) over all report objects,
updating the transducer slots positionally.  Slots beyond the report length
are untouched; the (impossible in the driver, where the report length equals
the slot count) case of more objects than slots stops at the slot array. -/
def handleReportLoop1 (conf : RMI2DSensorConfig) (clickpadState : Bool) :
    List rmi_2d_sensor_abs_object → List VoodooInputTransducer → Nat → Bool →
    List VoodooInputTransducer × Nat × Bool
  | [], ts, realFingerCount, pressureLock => (ts, realFingerCount, pressureLock)
  | _ :: _, [], realFingerCount, pressureLock => ([], realFingerCount, pressureLock)
  | obj :: objs, t :: ts, realFingerCount, pressureLock =>
    let r := handleReportContact conf clickpadState obj t realFingerCount pressureLock
    let rest := handleReportLoop1 conf clickpadState objs ts r.2.1 r.2.2
    (r.1 :: rest.1, rest.2.1, rest.2.2)

/-- The scan of `RMI2DSensor::setThumbFingerType` (lines 199-208): running
strict maximum of the current Y coordinate over valid slots, `minY` starting
at 0 (so all-zero Y finds no index, mirroring the `lowestFingerIndex == -1`
early return).  `i` is the absolute index of the head of the list. -/
def thumbScan : List VoodooInputTransducer → Nat → Option Nat → Nat →
    Option Nat × Nat
  | [], _, best, minY => (best, minY)
  | t :: ts, i, best, minY =>
    if t.isValid && decide (t.currY > minY) then thumbScan ts (i + 1) (some i) t.currY
    else thumbScan ts (i + 1) best minY

/-- `RMI2DSensor::setThumbFingerType` (lines 197-221): find the valid slot
with the numerically largest current Y among the first `fingers` slots; free
its previously held identity (when not `undefined`), assign it the thumb
identity and remove the thumb from the pool.  When no slot qualifies the
state is unchanged (the error-logging early return). -/
def setThumbFingerType (fingers : Nat) (free : MT2FingerType → Bool)
    (ts : List VoodooInputTransducer) :
    (MT2FingerType → Bool) × List VoodooInputTransducer :=
  match (thumbScan (ts.take fingers) 0 none 0).1 with
  | none => (free, ts)
  | some j =>
    match ts.get? j with
    | none => (free, ts)
    | some t =>
      let free := if t.fingerType ≠ MT2FingerType.undefined then
          setFree free t.fingerType true
        else free
      (setFree free MT2FingerType.thumb false,
       ts.set j { t with fingerType := MT2FingerType.thumb })

/-- The second `handleReport` loop (lines 171-184) over the first `n` slots:
a valid slot with an unassigned identity receives `getFingerType`'s pick; an
invalid slot releases its identity (when not `undefined`) back to the pool
and is reset to `undefined`.  Release and allocation are interleaved in slot
order within this single pass. -/
def handleReportLoop2 (free : MT2FingerType → Bool) :
    Nat → List VoodooInputTransducer →
    (MT2FingerType → Bool) × List VoodooInputTransducer
  | _, [] => (free, [])
  | 0, t :: ts => (free, t :: ts)
  | n + 1, t :: ts =>
    if t.isValid then
      if t.fingerType = MT2FingerType.undefined then
        let r := getFingerType free
        let rest := handleReportLoop2 r.2 n ts
        (rest.1, { t with fingerType := r.1 } :: rest.2)
      else
        let rest := handleReportLoop2 free n ts
        (rest.1, t :: rest.2)
    else
      let free2 := if t.fingerType ≠ MT2FingerType.undefined then
          setFree free t.fingerType true
        else free
      let rest := handleReportLoop2 free2 n ts
      (rest.1, { t with fingerType := MT2FingerType.undefined } :: rest.2)

/-- `RMI2DSensor::handleReport` (RMI_2D_Sensor.cpp lines 115-195): the first
per-contact loop, the thumb pre-emption when exactly 4 type-valid contacts
were counted and the thumb is free, the identity pass, and the final
pressure-lock release when no type-valid contact was counted.  The
input-event delivery (`messageClient`) and the report memset are not
modelled; the function returns the new persistent sensor state. -/
def handleReport (conf : RMI2DSensorConfig) (clickpadState : Bool)
    (st : RMI2DSensorState) (objs : List rmi_2d_sensor_abs_object) :
    RMI2DSensorState :=
  let r1 := handleReportLoop1 conf clickpadState objs st.transducers 0 st.pressureLock
  let realFingerCount := r1.2.1
  let p2 := if realFingerCount = 4 && st.freeFingerTypes MT2FingerType.thumb then
      setThumbFingerType objs.length st.freeFingerTypes r1.1
    else (st.freeFingerTypes, r1.1)
  let p3 := handleReportLoop2 p2.1 objs.length p2.2
  { freeFingerTypes := p3.1
    transducers := p3.2
    pressureLock := if realFingerCount = 0 then false else r1.2.2 }

-- Helper lemmas about the first handleReport loop.

theorem handleReportContact_fingerType (conf : RMI2DSensorConfig)
    (cp : Bool) (obj : rmi_2d_sensor_abs_object) (t : VoodooInputTransducer)
    (c : Nat) (l : Bool) :
    (handleReportContact conf cp obj t c l).1.fingerType = t.fingerType := by
  simp only [handleReportContact]
  split_ifs <;> rfl

theorem handleReportContact_count (conf : RMI2DSensorConfig)
    (cp : Bool) (obj : rmi_2d_sensor_abs_object) (t : VoodooInputTransducer)
    (c : Nat) (l : Bool) :
    (handleReportContact conf cp obj t c l).2.1 =
      if isReportedFinger obj then c + 1 else c := by
  simp only [handleReportContact]
  split_ifs <;> rfl

/-- The lock engage condition of `handleReport` (line 152):
`clickpadState && forceTouchEmulation && obj.z > forceTouchMinPressure`. -/
def forceTouchEngages (conf : RMI2DSensorConfig) (clickpadState : Bool)
    (obj : rmi_2d_sensor_abs_object) : Bool :=
  clickpadState && conf.forceTouchEmulation &&
    decide (obj.z > conf.forceTouchMinPressure)

theorem handleReportContact_lock (conf : RMI2DSensorConfig)
    (cp : Bool) (obj : rmi_2d_sensor_abs_object) (t : VoodooInputTransducer)
    (c : Nat) (l : Bool) :
    (handleReportContact conf cp obj t c l).2.2 =
      if isReportedFinger obj then
        (if forceTouchEngages conf cp obj then true
         else if c + 1 ≠ 1 then false else l)
      else l := by
  simp only [handleReportContact, forceTouchEngages]
  split_ifs <;> rfl

/-- The number of report objects whose decoded type is finger or stylus —
the quantity `realFingerCount` accumulates, independent of the Z and width
fields the palm-rejection check looks at. -/
def typeValidCount (objs : List rmi_2d_sensor_abs_object) : Nat :=
  objs.countP isReportedFinger

/-- The palm-rejection survivor test (line 122 and line 136 combined): a
contact that is type-valid and passes `z < 120 && abs(wx - wy) < 3`. -/
def survivesPalmCheck (obj : rmi_2d_sensor_abs_object) : Bool :=
  isReportedFinger obj && decide (obj.z < 120) &&
    decide (((obj.wx : Int) - (obj.wy : Int)).natAbs < 3)

theorem handleReportLoop1_count (conf : RMI2DSensorConfig) (cp : Bool) :
    ∀ (objs : List rmi_2d_sensor_abs_object) (ts : List VoodooInputTransducer)
      (c : Nat) (l : Bool), objs.length ≤ ts.length →
      (handleReportLoop1 conf cp objs ts c l).2.1 = c + typeValidCount objs := by
  intro objs
  induction objs with
  | nil =>
    intro ts c l _
    simp [handleReportLoop1, typeValidCount]
  | cons o os ih =>
    intro ts c l h
    cases ts with
    | nil => simp at h
    | cons t ts =>
      simp only [handleReportLoop1]
      rw [ih _ _ _ (by simpa using h), handleReportContact_count]
      simp only [typeValidCount, List.countP_cons]
      cases hf : isReportedFinger o <;> simp [hf] <;> omega

/-- End-of-loop value of the pressure lock, as a function of the type-valid
contacts alone: unchanged when there is none; with the count entering at 0
and exactly one type-valid contact, the old value OR-ed with that contact's
engage condition; otherwise the engage condition of the last type-valid
contact processed. -/
def handleReportLockSpec (conf : RMI2DSensorConfig) (cp : Bool) (c : Nat)
    (l : Bool) (objs : List rmi_2d_sensor_abs_object) : Bool :=
  match objs.filter isReportedFinger with
  | [] => l
  | v :: vs =>
    if c = 0 ∧ vs = [] then l || forceTouchEngages conf cp v
    else forceTouchEngages conf cp (vs.getLastD v)

theorem getLast?_getD_cons {α : Type} (o v : α) (vs : List α) :
    (v :: vs).getLast?.getD o = vs.getLast?.getD v := by
  induction vs generalizing o v with
  | nil => rfl
  | cons w ws ih => rw [List.getLast?_cons_cons, ih, ih]

theorem lockSpec_cons_of_valid (conf : RMI2DSensorConfig) (cp : Bool)
    (o : rmi_2d_sensor_abs_object) (os : List rmi_2d_sensor_abs_object)
    (c : Nat) (l : Bool) (hf : isReportedFinger o = true) :
    handleReportLockSpec conf cp c l (o :: os) =
      handleReportLockSpec conf cp (c + 1)
        (if forceTouchEngages conf cp o then true
         else if c + 1 ≠ 1 then false else l) os := by
  unfold handleReportLockSpec
  rw [List.filter_cons_of_pos (by simp [hf])]
  cases hfo : os.filter isReportedFinger with
  | nil =>
    rcases Nat.eq_zero_or_pos c with hc | hc
    · subst hc
      simp only [List.getLastD_nil, and_true, if_true, ite_true, Nat.zero_add,
        ne_eq, not_true_eq_false, if_false, ite_false, eq_self_iff_true]
      cases forceTouchEngages conf cp o <;> cases l <;> simp
    · have h1 : ¬(c = 0 ∧ ([] : List rmi_2d_sensor_abs_object) = []) := by
        intro hcc
        exact absurd hcc.1 (by omega)
      have h2 : c + 1 ≠ 1 := by omega
      simp [h1, h2]
      intro hc0
      exact absurd hc0 (by omega)
  | cons v vs =>
    have h1 : ¬(c = 0 ∧ v :: vs = ([] : List rmi_2d_sensor_abs_object)) := by
      intro hcc
      exact List.cons_ne_nil _ _ hcc.2
    have h2 : ¬(c + 1 = 0 ∧ vs = ([] : List rmi_2d_sensor_abs_object)) := by
      intro hcc
      exact absurd hcc.1 (by omega)
    simp [h1, h2]
    rw [getLast?_getD_cons]

theorem lockSpec_cons_of_invalid (conf : RMI2DSensorConfig) (cp : Bool)
    (o : rmi_2d_sensor_abs_object) (os : List rmi_2d_sensor_abs_object)
    (c : Nat) (l : Bool) (hf : isReportedFinger o = false) :
    handleReportLockSpec conf cp c l (o :: os) =
      handleReportLockSpec conf cp c l os := by
  unfold handleReportLockSpec
  rw [List.filter_cons_of_neg (by simp [hf])]

theorem handleReportLoop1_lock (conf : RMI2DSensorConfig) (cp : Bool) :
    ∀ (objs : List rmi_2d_sensor_abs_object) (ts : List VoodooInputTransducer)
      (c : Nat) (l : Bool), objs.length ≤ ts.length →
      (handleReportLoop1 conf cp objs ts c l).2.2 =
        handleReportLockSpec conf cp c l objs := by
  intro objs
  induction objs with
  | nil =>
    intro ts c l _
    simp [handleReportLoop1, handleReportLockSpec]
  | cons o os ih =>
    intro ts c l h
    cases ts with
    | nil => simp at h
    | cons t ts =>
      simp only [handleReportLoop1]
      rw [ih _ _ _ (by simpa using h), handleReportContact_count,
        handleReportContact_lock]
      cases hf : isReportedFinger o with
      | false =>
        rw [lockSpec_cons_of_invalid conf cp o os c l hf]
        simp
      | true =>
        rw [lockSpec_cons_of_valid conf cp o os c l hf]
        simp

-- Concrete scenarios exercising the palm-rejection/count interaction and
-- the pressure-lock behavior.

def palmScenarioConf : RMI2DSensorConfig := { max_y := 1000 }

def thumbScenarioState : RMI2DSensorState :=
  { freeFingerTypes := initialFreeFingerTypes
    transducers := [{}, {}, {}, {}]
    pressureLock := false }

/-- Four finger-type contacts, the fourth palm-rejected (z = 150 ≥ 120). -/
def thumbScenarioObjs : List rmi_2d_sensor_abs_object :=
  [{ type := RMI2DObjectType.finger, x := 1, y := 900, z := 10 },
   { type := RMI2DObjectType.finger, x := 2, y := 800, z := 10 },
   { type := RMI2DObjectType.finger, x := 3, y := 700, z := 10 },
   { type := RMI2DObjectType.finger, x := 4, y := 600, z := 150 }]

def lockScenarioState : RMI2DSensorState :=
  { freeFingerTypes := initialFreeFingerTypes
    transducers := [{}]
    pressureLock := false }

/-- A single finger-type contact that fails the palm check (z = 150). -/
def lockScenarioObjs : List rmi_2d_sensor_abs_object :=
  [{ type := RMI2DObjectType.finger, x := 1, y := 1, z := 150 }]

/-- Claim C10: the contact count that triggers thumb pre-emption (= 4),
defeats the pressure lock (≠ 1) and releases it (= 0) is `typeValidCount` —
the number of contacts whose decoded type is finger or stylus, counting
contacts the palm check (z ≥ 120 or |wx − wy| ≥ 3) later marks invalid.
Conjunct 1: the first-loop count equals `typeValidCount` for every report,
and a zero count releases the lock.  Conjunct 2: with four type-valid
contacts of which only three survive palm rejection, thumb pre-emption still
fires (the thumb leaves the pool and lands on a slot).  Conjunct 3: a lone
palm-rejected contact keeps — indeed engages — the lock rather than
releasing it, though zero contacts survive palm rejection. -/
theorem claim_C10_count_is_type_valid :
    (∀ (conf : RMI2DSensorConfig) (cp : Bool) (st : RMI2DSensorState)
        (objs : List rmi_2d_sensor_abs_object),
        objs.length ≤ st.transducers.length →
        (handleReportLoop1 conf cp objs st.transducers 0 st.pressureLock).2.1 =
            typeValidCount objs
          ∧ (typeValidCount objs = 0 →
              (handleReport conf cp st objs).pressureLock = false))
    ∧ (typeValidCount thumbScenarioObjs = 4
       ∧ thumbScenarioObjs.countP survivesPalmCheck = 3
       ∧ (handleReport palmScenarioConf false thumbScenarioState
            thumbScenarioObjs).freeFingerTypes MT2FingerType.thumb = false
       ∧ (handleReport palmScenarioConf false thumbScenarioState
            thumbScenarioObjs).transducers.countP
              (fun t => t.fingerType == MT2FingerType.thumb) = 1)
    ∧ (typeValidCount lockScenarioObjs = 1
       ∧ lockScenarioObjs.countP survivesPalmCheck = 0
       ∧ (handleReport palmScenarioConf true lockScenarioState
            lockScenarioObjs).pressureLock = true) := by
  refine ⟨fun conf cp st objs hlen => ⟨?_, ?_⟩, by decide, by decide⟩
  · simpa using handleReportLoop1_count conf cp objs st.transducers 0
      st.pressureLock hlen
  · intro h0
    have hc := handleReportLoop1_count conf cp objs st.transducers 0
      st.pressureLock hlen
    simp only [handleReport]
    rw [hc]
    simp [h0]

/-- Claim C10 witness: the universally quantified conjunct applied at the
lone-palm-rejected-contact scenario. -/
theorem claim_C10_witness :
    lockScenarioObjs.length ≤ lockScenarioState.transducers.length ∧
    (handleReportLoop1 palmScenarioConf true lockScenarioObjs
      lockScenarioState.transducers 0 lockScenarioState.pressureLock).2.1 =
      typeValidCount lockScenarioObjs :=
  ⟨by decide, (claim_C10_count_is_type_valid.1 palmScenarioConf true
    lockScenarioState lockScenarioObjs (by decide)).1⟩

def c4LockConf : RMI2DSensorConfig := { max_y := 1000 }

def c4LockState : RMI2DSensorState :=
  { freeFingerTypes := initialFreeFingerTypes
    transducers := [{}, {}]
    pressureLock := true }

def c4LockObjs : List rmi_2d_sensor_abs_object :=
  [{ type := RMI2DObjectType.finger, x := 10, y := 10, z := 100 },
   { type := RMI2DObjectType.finger, x := 50, y := 50, z := 100 }]

/-- Claim C4 counterexample: with the pressure lock engaged and the
click-pad press still asserted, a report introducing a second valid contact
(both contacts z = 100: above the default threshold 80, below the palm limit
120, so both survive palm rejection) leaves the lock ENGAGED after the
update, refuting "the lock clears when a second valid contact appears": the
second contact clears it momentarily, but the engage condition is then
re-evaluated for that same contact and re-engages the lock. -/
theorem claim_C4_counterexample :
    (handleReport c4LockConf true c4LockState c4LockObjs).pressureLock = true
    ∧ c4LockObjs.countP survivesPalmCheck = 2 := by
  decide

-- Structural lemmas about the two handleReport loops.

theorem handleReportLoop1_length (conf : RMI2DSensorConfig) (cp : Bool) :
    ∀ (objs : List rmi_2d_sensor_abs_object) (ts : List VoodooInputTransducer)
      (c : Nat) (l : Bool),
      (handleReportLoop1 conf cp objs ts c l).1.length = ts.length := by
  intro objs
  induction objs with
  | nil =>
    intro ts c l
    rfl
  | cons o os ih =>
    intro ts c l
    cases ts with
    | nil => rfl
    | cons t ts =>
      simp only [handleReportLoop1, List.length_cons]
      rw [ih]

theorem handleReportLoop1_append (conf : RMI2DSensorConfig) (cp : Bool) :
    ∀ (os1 : List rmi_2d_sensor_abs_object) (ts1 : List VoodooInputTransducer)
      (os2 : List rmi_2d_sensor_abs_object) (ts2 : List VoodooInputTransducer)
      (c : Nat) (l : Bool), os1.length = ts1.length →
      handleReportLoop1 conf cp (os1 ++ os2) (ts1 ++ ts2) c l =
        ((handleReportLoop1 conf cp os1 ts1 c l).1 ++
          (handleReportLoop1 conf cp os2 ts2
            (handleReportLoop1 conf cp os1 ts1 c l).2.1
            (handleReportLoop1 conf cp os1 ts1 c l).2.2).1,
         (handleReportLoop1 conf cp os2 ts2
            (handleReportLoop1 conf cp os1 ts1 c l).2.1
            (handleReportLoop1 conf cp os1 ts1 c l).2.2).2) := by
  intro os1
  induction os1 with
  | nil =>
    intro ts1 os2 ts2 c l h
    have h0 : ts1 = [] := by
      cases ts1
      · rfl
      · simp at h
    subst h0
    simp [handleReportLoop1]
  | cons o os ih =>
    intro ts1 os2 ts2 c l h
    cases ts1 with
    | nil => simp at h
    | cons t ts =>
      simp only [List.cons_append, handleReportLoop1, List.append_eq]
      rw [ih _ os2 ts2 _ _ (by simpa using h)]

theorem handleReportLoop1_all_invalid (conf : RMI2DSensorConfig) (cp : Bool) :
    ∀ (os : List rmi_2d_sensor_abs_object) (ts : List VoodooInputTransducer)
      (c : Nat) (l : Bool), (∀ o ∈ os, isReportedFinger o = false) →
      (handleReportLoop1 conf cp os ts c l).2.1 = c ∧
        (handleReportLoop1 conf cp os ts c l).2.2 = l := by
  intro os
  induction os with
  | nil =>
    intro ts c l _
    exact ⟨rfl, rfl⟩
  | cons o os ih =>
    intro ts c l h
    have hf : isReportedFinger o = false := h o (by simp)
    have hrest : ∀ o' ∈ os, isReportedFinger o' = false := fun o' ho' =>
      h o' (by simp [ho'])
    cases ts with
    | nil => exact ⟨rfl, rfl⟩
    | cons t ts =>
      simp only [handleReportLoop1]
      rw [handleReportContact_count, handleReportContact_lock, hf]
      simp only [Bool.false_eq_true, if_false, ite_false]
      exact ih ts c l hrest

theorem handleReportLoop2_get? (free : MT2FingerType → Bool) :
    ∀ (n : Nat) (ts : List VoodooInputTransducer) (i : Nat),
      ∃ ft, (handleReportLoop2 free n ts).2.get? i =
        (ts.get? i).map (fun t => { t with fingerType := ft }) := by
  intro n
  induction n generalizing free with
  | zero =>
    intro ts i
    cases ts with
    | nil => exact ⟨MT2FingerType.undefined, rfl⟩
    | cons t ts =>
      refine ⟨((t :: ts).get? i).elim MT2FingerType.undefined (·.fingerType), ?_⟩
      have hz : handleReportLoop2 free 0 (t :: ts) = (free, t :: ts) := rfl
      rw [hz]
      cases hg : (t :: ts).get? i with
      | none => rfl
      | some u => rfl
  | succ n ih =>
    intro ts i
    cases ts with
    | nil => exact ⟨MT2FingerType.undefined, rfl⟩
    | cons t ts =>
      cases i with
      | zero =>
        simp only [handleReportLoop2]
        split_ifs with h1 h2 h3
        · exact ⟨(getFingerType free).1, rfl⟩
        · exact ⟨t.fingerType, rfl⟩
        · exact ⟨MT2FingerType.undefined, rfl⟩
        · exact ⟨MT2FingerType.undefined, rfl⟩
      | succ i =>
        simp only [handleReportLoop2]
        split_ifs with h1 h2 h3
        · obtain ⟨ft, hft⟩ := ih (getFingerType free).2 ts i
          exact ⟨ft, by simpa using hft⟩
        · obtain ⟨ft, hft⟩ := ih free ts i
          exact ⟨ft, by simpa using hft⟩
        · obtain ⟨ft, hft⟩ := ih (setFree free t.fingerType true) ts i
          exact ⟨ft, by simpa using hft⟩
        · obtain ⟨ft, hft⟩ := ih free ts i
          exact ⟨ft, by simpa using hft⟩

/-- Claim C4 (amended): the pressure-lock behavior of `handleReport`, where
"valid contact" is the type-valid count (see C10) and the engage condition
is `forceTouchEngages` (click-pad press asserted AND force-touch emulation
enabled AND Z above the configured threshold).
(A) When no type-valid contact remains, the lock clears.
(B) With two or more type-valid contacts the final lock state equals the
engage condition of the LAST type-valid contact — a second valid contact
clears the lock only when no later-processed contact re-engages it in the
same update (the counterexample shows the re-engage).
(C) With exactly one type-valid contact: the final lock state is the old
state OR-ed with the contact's engage condition; while the lock was engaged
the slot's reported position stays frozen at its previous coordinates even
though the underlying contact moved; reported pressure is 255 exactly when
the final lock is engaged and 0 otherwise; and physical-button-down is
reported true iff the click-pad press is asserted and the final lock is not
engaged. -/
theorem claim_C4_pressure_lock (conf : RMI2DSensorConfig) (cp : Bool)
    (st : RMI2DSensorState) (objs : List rmi_2d_sensor_abs_object)
    (hlen : objs.length ≤ st.transducers.length) :
    ((objs.filter isReportedFinger = []) →
      (handleReport conf cp st objs).pressureLock = false)
    ∧ (∀ v vs, objs.filter isReportedFinger = v :: vs → vs ≠ [] →
        (handleReport conf cp st objs).pressureLock =
          forceTouchEngages conf cp (vs.getLastD v))
    ∧ (∀ os1 o os2 ts1 t ts2,
        objs = os1 ++ o :: os2 →
        st.transducers = ts1 ++ t :: ts2 →
        os1.length = ts1.length →
        (∀ o' ∈ os1, isReportedFinger o' = false) →
        (∀ o' ∈ os2, isReportedFinger o' = false) →
        isReportedFinger o = true →
        (handleReport conf cp st objs).pressureLock =
            (st.pressureLock || forceTouchEngages conf cp o)
          ∧ ∃ ft, (handleReport conf cp st objs).transducers.get? os1.length =
              some { t with
                fingerType := ft
                isValid := decide (o.z < 120) &&
                  decide (((o.wx : Int) - (o.wy : Int)).natAbs < 3)
                prevX := t.currX
                prevY := t.currY
                currX := if st.pressureLock then t.currX else o.x
                currY := if st.pressureLock then t.currY else conf.max_y - o.y
                pressure := if st.pressureLock || forceTouchEngages conf cp o
                  then 255 else 0
                isPhysicalButtonDown :=
                  cp && !(st.pressureLock || forceTouchEngages conf cp o) }) := by
  obtain ⟨free, trans, slock⟩ := st
  simp only at hlen
  have hcount := handleReportLoop1_count conf cp objs trans 0 slock hlen
  have hlock := handleReportLoop1_lock conf cp objs trans 0 slock hlen
  refine ⟨?_, ?_, ?_⟩
  · intro hnil
    have h0 : typeValidCount objs = 0 := by
      rw [typeValidCount, List.countP_eq_length_filter, hnil]
      rfl
    simp only [handleReport]
    rw [hcount]
    simp [h0]
  · intro v vs hfil hvs
    have hc : 0 + typeValidCount objs ≠ 0 := by
      rw [typeValidCount, List.countP_eq_length_filter, hfil]
      simp
    simp only [handleReport]
    rw [hcount, hlock]
    simp only [if_neg hc]
    have hcc : ¬(0 = 0 ∧ vs = ([] : List rmi_2d_sensor_abs_object)) := by
      intro h
      exact hvs h.2
    have hred : handleReportLockSpec conf cp 0 slock objs =
        if 0 = 0 ∧ vs = [] then slock || forceTouchEngages conf cp v
        else forceTouchEngages conf cp (vs.getLastD v) := by
      unfold handleReportLockSpec
      rw [hfil]
    rw [hred, if_neg hcc]
  · intro os1 o os2 ts1 t ts2 hobj hts hlen1 hinv1 hinv2 hf
    simp only at hts
    subst hobj
    subst hts
    obtain ⟨hc1, hl1⟩ := handleReportLoop1_all_invalid conf cp os1 ts1 0 slock hinv1
    simp only [handleReport]
    rw [handleReportLoop1_append conf cp os1 ts1 (o :: os2) (t :: ts2) 0 slock hlen1]
    simp only [handleReportLoop1, hc1, hl1, handleReportContact_count,
      handleReportContact_lock, hf, if_true, ite_true]
    have hL : (if forceTouchEngages conf cp o then true
        else if 0 + 1 ≠ 1 then false else slock) =
        (slock || forceTouchEngages conf cp o) := by
      cases forceTouchEngages conf cp o <;> cases slock <;> simp
    simp only [hL]
    obtain ⟨hc2, hl2⟩ := handleReportLoop1_all_invalid conf cp os2 ts2 (0 + 1)
      (slock || forceTouchEngages conf cp o) hinv2
    simp only [hc2, hl2]
    have h14 : (decide ((0 : Nat) + 1 = 4) && free MT2FingerType.thumb) = false := by
      simp
    simp only [h14, Bool.false_eq_true, if_false, ite_false]
    constructor
    · simp
    · obtain ⟨ft, hft⟩ := handleReportLoop2_get? free ((os1 ++ o :: os2).length)
        ((handleReportLoop1 conf cp os1 ts1 0 slock).1 ++
          (handleReportContact conf cp o t 0 slock).1 ::
            (handleReportLoop1 conf cp os2 ts2 (0 + 1)
              (slock || forceTouchEngages conf cp o)).1) os1.length
      refine ⟨ft, ?_⟩
      rw [hft]
      have hlen2 : (handleReportLoop1 conf cp os1 ts1 0 slock).1.length =
          os1.length := by
        rw [handleReportLoop1_length]
        omega
      rw [List.get?_append_right (le_of_eq hlen2), hlen2]
      simp only [Nat.sub_self, List.get?_cons_zero, Option.map_some]
      simp only [handleReportContact, hf, forceTouchEngages, if_true, ite_true]
      cases hsl : slock <;> simp [hsl]

def c4SingleObj : rmi_2d_sensor_abs_object :=
  { type := RMI2DObjectType.finger, x := 30, y := 40, z := 100 }

def c4SingleTrans : VoodooInputTransducer := { currX := 7, currY := 8 }

def c4SingleState : RMI2DSensorState :=
  { freeFingerTypes := initialFreeFingerTypes
    transducers := [c4SingleTrans]
    pressureLock := true }

/-- Claim C4 witness: the single-contact conjunct of the amended theorem
applied at a concrete engaged-lock state with one moving contact. -/
theorem claim_C4_witness :
    [c4SingleObj].length ≤ c4SingleState.transducers.length ∧
    (handleReport c4LockConf true c4SingleState [c4SingleObj]).pressureLock =
      (c4SingleState.pressureLock || forceTouchEngages c4LockConf true c4SingleObj) :=
  ⟨by decide,
    ((claim_C4_pressure_lock c4LockConf true c4SingleState [c4SingleObj]
        (by decide)).2.2 [] c4SingleObj [] [] c4SingleTrans [] rfl rfl rfl
        (by simp) (by simp) (by decide)).1⟩

-- The finger-type pool invariant and its preservation.

/-- Number of transducer slots currently holding the identity `ty`. -/
def countType (ts : List VoodooInputTransducer) (ty : MT2FingerType) : Nat :=
  ts.countP (fun t => t.fingerType == ty)

/-- The pool invariant: every identity other than `undefined` is either free
and held by no slot, or not free and held by exactly one slot. -/
def PoolInv (free : MT2FingerType → Bool) (ts : List VoodooInputTransducer) : Prop :=
  ∀ ty : MT2FingerType, ty ≠ MT2FingerType.undefined →
    countType ts ty = if free ty then 0 else 1

theorem countType_cons (t : VoodooInputTransducer)
    (ts : List VoodooInputTransducer) (ty : MT2FingerType) :
    countType (t :: ts) ty =
      countType ts ty + (if t.fingerType = ty then 1 else 0) := by
  simp [countType, List.countP_cons]

theorem handleReportLoop1_fingerTypes (conf : RMI2DSensorConfig) (cp : Bool) :
    ∀ (objs : List rmi_2d_sensor_abs_object) (ts : List VoodooInputTransducer)
      (c : Nat) (l : Bool),
      ((handleReportLoop1 conf cp objs ts c l).1).map (fun t => t.fingerType) =
        ts.map (fun t => t.fingerType) := by
  intro objs
  induction objs with
  | nil =>
    intro ts c l
    rfl
  | cons o os ih =>
    intro ts c l
    cases ts with
    | nil => rfl
    | cons t ts =>
      simp only [handleReportLoop1, List.map_cons]
      rw [ih, handleReportContact_fingerType]

theorem countType_eq_map (ts : List VoodooInputTransducer) (ty : MT2FingerType) :
    countType ts ty = (ts.map (fun t => t.fingerType)).countP (fun ft => ft == ty) := by
  simp [countType, List.countP_map]
  rfl

theorem getFingerType_cases (free : MT2FingerType → Bool) :
    (getFingerType free = (MT2FingerType.undefined, free)) ∨
    ((getFingerType free).1 ≠ MT2FingerType.undefined ∧
      (getFingerType free).1 ≠ MT2FingerType.thumb ∧
      free (getFingerType free).1 = true ∧
      (getFingerType free).2 = setFree free (getFingerType free).1 false) := by
  unfold getFingerType
  cases hfind : [MT2FingerType.indexFinger, MT2FingerType.middleFinger,
      MT2FingerType.ringFinger, MT2FingerType.littleFinger].find? free with
  | none => exact Or.inl rfl
  | some ty =>
    right
    have hmem := List.mem_of_find?_eq_some hfind
    have hp := List.find?_some hfind
    simp at hmem
    rcases hmem with rfl | rfl | rfl | rfl <;>
      exact ⟨by simp, by simp, hp, rfl⟩

set_option maxHeartbeats 1000000 in
theorem handleReportLoop2_inv :
    ∀ (ts : List VoodooInputTransducer) (n : Nat) (free : MT2FingerType → Bool)
      (outside : MT2FingerType → Nat),
      (∀ ty, ty ≠ MT2FingerType.undefined →
        outside ty + countType ts ty = if free ty then 0 else 1) →
      ∀ ty, ty ≠ MT2FingerType.undefined →
        outside ty + countType (handleReportLoop2 free n ts).2 ty =
          if (handleReportLoop2 free n ts).1 ty then 0 else 1 := by
  intro ts
  induction ts with
  | nil =>
    intro n free outside hpre ty hty
    cases n <;> exact hpre ty hty
  | cons t ts ih =>
    intro n free outside hpre ty hty
    cases n with
    | zero => exact hpre ty hty
    | succ m =>
      have hne : ¬(MT2FingerType.undefined = ty) := fun h => hty h.symm
      by_cases h1 : t.isValid = true
      · by_cases h2 : t.fingerType = MT2FingerType.undefined
        · -- valid slot with unassigned identity: allocate from the pool
          simp only [handleReportLoop2, h1, h2, if_true, ite_true, if_pos rfl]
          rcases getFingerType_cases free with hg | ⟨hgu, hgf2, hgf, hgs⟩
          · -- no identity free: slot stays undefined, pool unchanged
            rw [hg]
            have hpre' : ∀ u, u ≠ MT2FingerType.undefined →
                outside u + countType ts u = if free u then 0 else 1 := by
              intro u hu
              have hp := hpre u hu
              rw [countType_cons, h2] at hp
              have hun : ¬(MT2FingerType.undefined = u) := fun h => hu h.symm
              rw [if_neg hun] at hp
              omega
            have hIH := ih m free outside hpre' ty hty
            rw [countType_cons]
            simp only [if_neg hne]
            omega
          · -- the pool hands out (getFingerType free).1
            have hpre' : ∀ u, u ≠ MT2FingerType.undefined →
                (outside u + if (getFingerType free).1 = u then 1 else 0) +
                  countType ts u = if (getFingerType free).2 u then 0 else 1 := by
              intro u hu
              have hp := hpre u hu
              rw [countType_cons, h2] at hp
              have hun : ¬(MT2FingerType.undefined = u) := fun h => hu h.symm
              rw [if_neg hun] at hp
              rw [hgs]
              by_cases huu : (getFingerType free).1 = u
              · rw [if_pos huu]
                rw [← huu] at hp ⊢
                simp [setFree, hgf] at hp ⊢
                omega
              · rw [if_neg huu]
                have : ¬(u = (getFingerType free).1) := fun h => huu h.symm
                simp only [setFree, if_neg this]
                omega
            have hIH := ih m (getFingerType free).2
              (fun u => outside u + if (getFingerType free).1 = u then 1 else 0)
              hpre' ty hty
            simp only at hIH
            rw [countType_cons]
            simp only
            omega
        · -- valid slot with an identity: unchanged
          simp only [handleReportLoop2, h1, if_true, ite_true, h2, if_false,
            ite_false]
          have hpre' : ∀ u, u ≠ MT2FingerType.undefined →
              (outside u + if t.fingerType = u then 1 else 0) + countType ts u =
                if free u then 0 else 1 := by
            intro u hu
            have hp := hpre u hu
            rw [countType_cons] at hp
            omega
          have hIH := ih m free
            (fun u => outside u + if t.fingerType = u then 1 else 0) hpre' ty hty
          simp only at hIH
          rw [countType_cons]
          omega
      · -- invalid slot: release its identity (if any), reset to undefined
        by_cases htu : t.fingerType = MT2FingerType.undefined
        · simp only [handleReportLoop2, h1, Bool.false_eq_true, if_false,
            ite_false, htu, ne_eq, not_true_eq_false]
          have hpre' : ∀ u, u ≠ MT2FingerType.undefined →
              outside u + countType ts u = if free u then 0 else 1 := by
            intro u hu
            have hp := hpre u hu
            rw [countType_cons, htu] at hp
            have hun : ¬(MT2FingerType.undefined = u) := fun h => hu h.symm
            rw [if_neg hun] at hp
            omega
          have hIH := ih m free outside hpre' ty hty
          rw [countType_cons]
          simp only [if_neg hne]
          omega
        · simp only [handleReportLoop2, h1, Bool.false_eq_true, if_false,
            ite_false, ne_eq, htu, not_false_iff, if_true, ite_true]
          have hpre' : ∀ u, u ≠ MT2FingerType.undefined →
              outside u + countType ts u =
                if setFree free t.fingerType true u then 0 else 1 := by
            intro u hu
            have hp := hpre u hu
            rw [countType_cons] at hp
            by_cases hfu : t.fingerType = u
            · rw [← hfu] at hp ⊢
              simp [setFree] at hp ⊢
              cases hfr : free t.fingerType
              · rw [hfr] at hp
                simp at hp
                omega
              · rw [hfr] at hp
                simp at hp
            · have : ¬(u = t.fingerType) := fun h => hfu h.symm
              simp only [setFree, if_neg this]
              rw [if_neg hfu] at hp
              omega
          have hIH := ih m (setFree free t.fingerType true) outside hpre' ty hty
          rw [countType_cons]
          simp only [if_neg hne]
          omega

theorem countType_set (v : VoodooInputTransducer) :
    ∀ (ts : List VoodooInputTransducer) (j : Nat) (t : VoodooInputTransducer),
      ts.get? j = some t → ∀ ty,
      countType (ts.set j v) ty + (if t.fingerType = ty then 1 else 0) =
        countType ts ty + (if v.fingerType = ty then 1 else 0) := by
  intro ts
  induction ts with
  | nil =>
    intro j t hget ty
    simp at hget
  | cons a ts ih =>
    intro j t hget ty
    cases j with
    | zero =>
      simp only [List.get?_cons_zero, Option.some.injEq] at hget
      subst hget
      simp only [List.set_cons_zero, countType_cons]
      omega
    | succ j =>
      simp only [List.set_cons_succ, countType_cons]
      have := ih j t (by simpa using hget) ty
      omega

theorem setThumbFingerType_inv (fingers : Nat) (free : MT2FingerType → Bool)
    (ts : List VoodooInputTransducer) (hthumb : free MT2FingerType.thumb = true)
    (hinv : PoolInv free ts) :
    PoolInv (setThumbFingerType fingers free ts).1
      (setThumbFingerType fingers free ts).2 := by
  rcases hscan : (thumbScan (ts.take fingers) 0 none 0).1 with _ | j
  · unfold setThumbFingerType
    simp only [hscan]
    exact hinv
  · rcases hget : ts.get? j with _ | t
    · unfold setThumbFingerType
      simp only [hscan, hget]
      exact hinv
    · have hres : setThumbFingerType fingers free ts =
          (setFree (if t.fingerType ≠ MT2FingerType.undefined then
              setFree free t.fingerType true else free) MT2FingerType.thumb false,
           ts.set j { t with fingerType := MT2FingerType.thumb }) := by
        unfold setThumbFingerType
        simp only [hscan, hget]
      rw [hres]
      have hcthumb : countType ts MT2FingerType.thumb = 0 := by
        have h := hinv MT2FingerType.thumb (by simp)
        rw [hthumb] at h
        simpa using h
      have htm : t ∈ ts := List.get?_mem hget
      have htft : ¬(t.fingerType = MT2FingerType.thumb) := by
        intro hcontra
        have hpos : 0 < countType ts MT2FingerType.thumb :=
          List.countP_pos_iff.mpr ⟨t, htm, by simp [hcontra]⟩
        omega
      intro ty hty
      simp only
      have hset := countType_set { t with fingerType := MT2FingerType.thumb }
        ts j t hget ty
      simp only at hset
      by_cases hyt : ty = MT2FingerType.thumb
      · subst hyt
        rw [if_neg htft, if_pos rfl] at hset
        simp [setFree]
        omega
      · simp only [setFree, if_neg hyt]
        have hvty : ¬(MT2FingerType.thumb = ty) := fun h => hyt h.symm
        rw [if_neg hvty] at hset
        have hi := hinv ty hty
        by_cases htund : t.fingerType = MT2FingerType.undefined
        · have hno : ¬(t.fingerType = ty) := by
            rw [htund]
            exact fun h => hty h.symm
          rw [if_neg hno] at hset
          simp only [htund, ne_eq, not_true_eq_false, if_false, ite_false]
          omega
        · simp only [ne_eq, htund, not_false_iff, if_true, ite_true]
          by_cases hfty : t.fingerType = ty
          · rw [if_pos hfty] at hset
            have hpos : 0 < countType ts ty :=
              List.countP_pos_iff.mpr ⟨t, htm, by simp [hfty]⟩
            have hsf : setFree free t.fingerType true ty = true := by
              simp [setFree, hfty]
            rw [hsf]
            simp
            cases hfree : free ty
            · rw [hfree] at hi
              simp at hi
              omega
            · rw [hfree] at hi
              simp at hi
              omega
          · rw [if_neg hfty] at hset
            have : ¬(ty = t.fingerType) := fun h => hfty h.symm
            simp only [setFree, if_neg this]
            omega

instance (free : MT2FingerType → Bool) (ts : List VoodooInputTransducer) :
    Decidable (PoolInv free ts) := by
  unfold PoolInv
  infer_instance

/-- Claim C9: across every multitouch update, each finger-type identity
other than `undefined` is in exactly one of two states — assigned to exactly
one slot, or present in the free pool (`PoolInv`) — and `handleReport`
(comprising the first loop, which never touches identities, the thumb
pre-emption including the release of the pre-empted slot's prior identity,
and the identity pass with its releases and allocations) preserves this
invariant. -/
theorem claim_C9_pool_invariant (conf : RMI2DSensorConfig) (cp : Bool)
    (st : RMI2DSensorState) (objs : List rmi_2d_sensor_abs_object)
    (hinv : PoolInv st.freeFingerTypes st.transducers) :
    PoolInv (handleReport conf cp st objs).freeFingerTypes
      (handleReport conf cp st objs).transducers := by
  obtain ⟨free, trans, slock⟩ := st
  have h1 : PoolInv free (handleReportLoop1 conf cp objs trans 0 slock).1 := by
    intro ty hty
    rw [countType_eq_map, handleReportLoop1_fingerTypes, ← countType_eq_map]
    exact hinv ty hty
  show PoolInv
    (handleReportLoop2
      (if (decide ((handleReportLoop1 conf cp objs trans 0 slock).2.1 = 4) &&
          free MT2FingerType.thumb) = true then
        setThumbFingerType objs.length free
          (handleReportLoop1 conf cp objs trans 0 slock).1
      else (free, (handleReportLoop1 conf cp objs trans 0 slock).1)).1
      objs.length
      (if (decide ((handleReportLoop1 conf cp objs trans 0 slock).2.1 = 4) &&
          free MT2FingerType.thumb) = true then
        setThumbFingerType objs.length free
          (handleReportLoop1 conf cp objs trans 0 slock).1
      else (free, (handleReportLoop1 conf cp objs trans 0 slock).1)).2).1
    (handleReportLoop2
      (if (decide ((handleReportLoop1 conf cp objs trans 0 slock).2.1 = 4) &&
          free MT2FingerType.thumb) = true then
        setThumbFingerType objs.length free
          (handleReportLoop1 conf cp objs trans 0 slock).1
      else (free, (handleReportLoop1 conf cp objs trans 0 slock).1)).1
      objs.length
      (if (decide ((handleReportLoop1 conf cp objs trans 0 slock).2.1 = 4) &&
          free MT2FingerType.thumb) = true then
        setThumbFingerType objs.length free
          (handleReportLoop1 conf cp objs trans 0 slock).1
      else (free, (handleReportLoop1 conf cp objs trans 0 slock).1)).2).2
  by_cases hc : (decide ((handleReportLoop1 conf cp objs trans 0 slock).2.1 = 4)
      && free MT2FingerType.thumb) = true
  · rw [if_pos hc]
    have hthumb : free MT2FingerType.thumb = true := by
      rw [Bool.and_eq_true] at hc
      exact hc.2
    have h2 := setThumbFingerType_inv objs.length free
      (handleReportLoop1 conf cp objs trans 0 slock).1 hthumb h1
    intro ty hty
    have h3 := handleReportLoop2_inv _ objs.length _ (fun _ => 0)
      (fun u hu => by simpa using h2 u hu) ty hty
    simpa using h3
  · rw [if_neg hc]
    intro ty hty
    have h3 := handleReportLoop2_inv _ objs.length _ (fun _ => 0)
      (fun u hu => by simpa using h1 u hu) ty hty
    simpa using h3

/-- Claim C9 witness: the invariant theorem applied at the four-contact
scenario starting from the freshly initialised pool. -/
theorem claim_C9_witness :
    PoolInv thumbScenarioState.freeFingerTypes thumbScenarioState.transducers ∧
    PoolInv (handleReport palmScenarioConf false thumbScenarioState
        thumbScenarioObjs).freeFingerTypes
      (handleReport palmScenarioConf false thumbScenarioState
        thumbScenarioObjs).transducers :=
  ⟨by decide, claim_C9_pool_invariant palmScenarioConf false thumbScenarioState
    thumbScenarioObjs (by decide)⟩

theorem handleReportLoop2_length :
    ∀ (ts : List VoodooInputTransducer) (n : Nat) (free : MT2FingerType → Bool),
      (handleReportLoop2 free n ts).2.length = ts.length := by
  intro ts
  induction ts with
  | nil =>
    intro n free
    cases n <;> rfl
  | cons t ts ih =>
    intro n free
    cases n with
    | zero => rfl
    | succ m =>
      simp only [handleReportLoop2]
      split_ifs <;> simp [List.length_cons, ih]

theorem handleReportLoop2_decomp :
    ∀ (i : Nat) (ts : List VoodooInputTransducer) (free : MT2FingerType → Bool)
      (j : Nat), i ≤ ts.length →
      handleReportLoop2 free (i + j) ts =
        ((handleReportLoop2 (handleReportLoop2 free i ts).1 j (ts.drop i)).1,
         (handleReportLoop2 free i ts).2.take i ++
           (handleReportLoop2 (handleReportLoop2 free i ts).1 j (ts.drop i)).2) := by
  intro i
  induction i with
  | zero =>
    intro ts free j h
    have h0 : (handleReportLoop2 free 0 ts).1 = free := by cases ts <;> rfl
    rw [h0]
    simp
  | succ i ih =>
    intro ts free j h
    cases ts with
    | nil => simp at h
    | cons t ts =>
      have harith : i + 1 + j = (i + j) + 1 := by omega
      rw [harith]
      simp only [handleReportLoop2, List.drop_succ_cons, List.take_succ_cons]
      split_ifs <;>
        (rw [ih ts _ j (by simpa using h)]
         simp)

def c3PrevState : RMI2DSensorState :=
  { freeFingerTypes := setFree initialFreeFingerTypes MT2FingerType.indexFinger false
    transducers := [{}, { fingerType := MT2FingerType.indexFinger, isValid := true }]
    pressureLock := false }

def c3Objs : List rmi_2d_sensor_abs_object :=
  [{ type := RMI2DObjectType.finger, x := 5, y := 5, z := 10 }, {}]

/-- Claim C3 counterexample: slot 0 becomes newly valid in the same update
in which slot 1 — holding the index identity, with every other non-thumb
identity free — goes invalid.  The claim says slot 0 receives the
lowest-numbered free non-thumb identity counting the just-released one,
i.e. the index identity; the code's single interleaved pass visits slot 0
before slot 1's release, so slot 0 receives the middle identity instead. -/
theorem claim_C3_counterexample :
    ((handleReport palmScenarioConf false c3PrevState c3Objs).transducers.map
      (fun t => t.fingerType)) =
      [MT2FingerType.middleFinger, MT2FingerType.undefined] ∧
    MT2FingerType.middleFinger ≠ MT2FingerType.indexFinger := by
  decide

/-- Claim C3 (amended): releases and allocations of the identity pass are
interleaved in a single walk in slot-index order.  A slot that transitions
to invalid releases its held identity at the moment it is visited (so the
pool right after visiting it — `handleReportLoop2 free (i+1) ts` — has the
identity free), and a valid contact with an unassigned identity receives
the lowest-numbered free non-thumb identity of the pool as of its position
in the pass (`handleReportLoop2 free i ts`): a release at a lower slot
index is therefore visible to it, a release at a higher index is not. -/
theorem claim_C3_interleaved_identity_pass
    (free : MT2FingerType → Bool) (ts : List VoodooInputTransducer)
    (n i : Nat) (t : VoodooInputTransducer)
    (hin : i < n) (hget : ts.get? i = some t) :
    (t.isValid = true → t.fingerType = MT2FingerType.undefined →
      (handleReportLoop2 free n ts).2.get? i =
        some { t with fingerType :=
          (getFingerType (handleReportLoop2 free i ts).1).1 })
    ∧ (t.isValid = false →
      (handleReportLoop2 free n ts).2.get? i =
        some { t with fingerType := MT2FingerType.undefined }
      ∧ (t.fingerType ≠ MT2FingerType.undefined →
          (handleReportLoop2 free (i + 1) ts).1 t.fingerType = true)) := by
  have hlen : i < ts.length := by
    by_contra hcon
    rw [List.get?_eq_none.mpr (by omega)] at hget
    simp at hget
  have hdrop : ts.drop i = t :: ts.drop (i + 1) := by
    rw [List.drop_eq_get_cons hlen]
    have hg := List.get?_eq_get hlen
    rw [hget] at hg
    simp only [Option.some.injEq] at hg
    rw [hg]
  have htake : ((handleReportLoop2 free i ts).2.take i).length = i := by
    simp only [List.length_take, handleReportLoop2_length]
    omega
  obtain ⟨k, hk⟩ : ∃ k, n = i + (k + 1) := ⟨n - i - 1, by omega⟩
  subst hk
  rw [handleReportLoop2_decomp i ts free (k + 1) (le_of_lt hlen)]
  have hget0 : ∀ (l2 : List VoodooInputTransducer),
      ((handleReportLoop2 free i ts).2.take i ++ l2).get? i = l2.get? 0 := by
    intro l2
    rw [List.get?_append_right (by omega)]
    rw [htake]
    simp
  constructor
  · intro hv hu
    simp only [hget0]
    rw [hdrop]
    simp only [handleReportLoop2, hv, hu, if_true, ite_true, if_pos rfl]
    rfl
  · intro hv
    constructor
    · simp only [hget0]
      rw [hdrop]
      simp only [handleReportLoop2, hv, Bool.false_eq_true, if_false, ite_false]
      rfl
    · intro hftu
      rw [handleReportLoop2_decomp i ts free 1 (le_of_lt hlen), hdrop]
      simp only [handleReportLoop2, hv, Bool.false_eq_true, if_false, ite_false,
        ne_eq, hftu, not_false_iff, if_true, ite_true]
      have h0 : ∀ (f : MT2FingerType → Bool),
          (handleReportLoop2 f 0 (ts.drop (i + 1))).1 = f := by
        intro f
        cases ts.drop (i + 1) <;> rfl
      rw [h0]
      simp [setFree]

def c3PassPool : MT2FingerType → Bool :=
  setFree initialFreeFingerTypes MT2FingerType.indexFinger false

def c3PassSlots : List VoodooInputTransducer :=
  [{ isValid := true }, { fingerType := MT2FingerType.indexFinger, isValid := false }]

/-- Claim C3 witness: the amended theorem applied at the counterexample's
identity-pass input (valid unassigned slot 0, invalid index-holding slot 1). -/
theorem claim_C3_witness :
    (0 < 2 ∧ c3PassSlots.get? 0 =
      some ({ isValid := true } : VoodooInputTransducer)) ∧
    (handleReportLoop2 c3PassPool 2 c3PassSlots).2.get? 0 =
      some { ({ isValid := true } : VoodooInputTransducer) with fingerType :=
        (getFingerType (handleReportLoop2 c3PassPool 0 c3PassSlots).1).1 } :=
  ⟨⟨by decide, by decide⟩,
   (claim_C3_interleaved_identity_pass c3PassPool c3PassSlots 2 0
     { isValid := true } (by decide) (by decide)).1 rfl rfl⟩

/-!
The capability-negotiation chain (`rmi_f11_get_query_parameters` and
`rmi_f11_initialize`).  The bit masks below are constants of the `F11.hpp`
header, which is not among the provided sources; they are modelled from the
spec's description of the chain (which bit gates which block) with the bit
positions of the RMI4 F11 register map the driver was ported from.  The
claims depend only on the gating structure, not on the concrete positions.
-/

def RMI_F11_QUERY_SIZE : Nat := 4
def RMI_F11_QUERY_GESTURE_SIZE : Nat := 2
def RMI_F11_NR_FINGERS_MASK : Nat := 0x07
def RMI_F11_HAS_REL : Nat := 0x08
def RMI_F11_HAS_ABS : Nat := 0x10
def RMI_F11_HAS_GESTURES : Nat := 0x20
def RMI_F11_HAS_SENSITIVITY_ADJ : Nat := 0x40
def RMI_F11_CONFIGURABLE : Nat := 0x80
def RMI_F11_NR_ELECTRODES_MASK : Nat := 0x7F
def RMI_F11_ABS_DATA_SIZE_MASK : Nat := 0x03
def RMI_F11_HAS_ANCHORED_FINGER : Nat := 0x04
def RMI_F11_HAS_ADJ_HYST : Nat := 0x08
def RMI_F11_HAS_DRIBBLE : Nat := 0x10
def RMI_F11_HAS_BENDING_CORRECTION : Nat := 0x20
def RMI_F11_HAS_LARGE_OBJECT_SUPPRESSION : Nat := 0x40
def RMI_F11_HAS_JITTER_FILTER : Nat := 0x80
def RMI_F11_HAS_SINGLE_TAP : Nat := 0x01
def RMI_F11_HAS_TAP_AND_HOLD : Nat := 0x02
def RMI_F11_HAS_DOUBLE_TAP : Nat := 0x04
def RMI_F11_HAS_EARLY_TAP : Nat := 0x08
def RMI_F11_HAS_FLICK : Nat := 0x10
def RMI_F11_HAS_PRESS : Nat := 0x20
def RMI_F11_HAS_PINCH : Nat := 0x40
def RMI_F11_HAS_CHIRAL : Nat := 0x80
def RMI_F11_HAS_PALM_DET : Nat := 0x01
def RMI_F11_HAS_ROTATE : Nat := 0x02
def RMI_F11_HAS_TOUCH_SHAPES : Nat := 0x04
def RMI_F11_HAS_SCROLL_ZONES : Nat := 0x08
def RMI_F11_HAS_INDIVIDUAL_SCROLL_ZONES : Nat := 0x10
def RMI_F11_HAS_MF_SCROLL : Nat := 0x20
def RMI_F11_HAS_MF_EDGE_MOTION : Nat := 0x40
def RMI_F11_HAS_MF_SCROLL_INERTIA : Nat := 0x80
def RMI_F11_HAS_PEN : Nat := 0x01
def RMI_F11_HAS_PROXIMITY : Nat := 0x02
def RMI_F11_HAS_PALM_DET_SENSITIVITY : Nat := 0x04
def RMI_F11_HAS_SUPPRESS_ON_PALM_DETECT : Nat := 0x08
def RMI_F11_HAS_TWO_PEN_THRESHOLDS : Nat := 0x10
def RMI_F11_HAS_CONTACT_GEOMETRY : Nat := 0x20
def RMI_F11_HAS_PEN_HOVER_DISCRIMINATION : Nat := 0x40
def RMI_F11_HAS_PEN_FILTERS : Nat := 0x80
def RMI_F11_NR_TOUCH_SHAPES_MASK : Nat := 0x1F
def RMI_F11_HAS_Z_TUNING : Nat := 0x01
def RMI_F11_HAS_ALGORITHM_SELECTION : Nat := 0x02
def RMI_F11_HAS_W_TUNING : Nat := 0x04
def RMI_F11_HAS_PITCH_INFO : Nat := 0x08
def RMI_F11_HAS_FINGER_SIZE : Nat := 0x10
def RMI_F11_HAS_SEGMENTATION_AGGRESSIVENESS : Nat := 0x20
def RMI_F11_HAS_XY_CLIP : Nat := 0x40
def RMI_F11_HAS_DRUMMING_FILTER : Nat := 0x80
def RMI_F11_HAS_GAPLESS_FINGER : Nat := 0x01
def RMI_F11_HAS_GAPLESS_FINGER_TUNING : Nat := 0x02
def RMI_F11_HAS_8BIT_W : Nat := 0x04
def RMI_F11_HAS_ADJUSTABLE_MAPPING : Nat := 0x08
def RMI_F11_HAS_INFO2 : Nat := 0x10
def RMI_F11_HAS_PHYSICAL_PROPS : Nat := 0x20
def RMI_F11_HAS_FINGER_LIMIT : Nat := 0x40
def RMI_F11_HAS_LINEAR_COEFF : Nat := 0x80
def RMI_F11_JITTER_WINDOW_MASK : Nat := 0x1F
def RMI_F11_JITTER_FILTER_MASK : Nat := 0x60
def RMI_F11_JITTER_FILTER_SHIFT : Nat := 5
def RMI_F11_LIGHT_CONTROL_MASK : Nat := 0x03
def RMI_F11_IS_CLEAR : Nat := 0x04
def RMI_F11_CLICKPAD_PROPS_MASK : Nat := 0x18
def RMI_F11_CLICKPAD_PROPS_SHIFT : Nat := 3
def RMI_F11_MOUSE_BUTTONS_MASK : Nat := 0x60
def RMI_F11_MOUSE_BUTTONS_SHIFT : Nat := 5
def RMI_F11_HAS_ADVANCED_GESTURES : Nat := 0x80
def RMI_F11_HAS_QUERY9 : Nat := 0x08
def RMI_F11_HAS_QUERY11 : Nat := 0x10
def RMI_F11_HAS_QUERY12 : Nat := 0x20
def RMI_F11_HAS_QUERY27 : Nat := 0x40
def RMI_F11_HAS_QUERY28 : Nat := 0x80
def RMI_F11_CTRL_REG_COUNT : Nat := 12
def F11_CTRL_SENSOR_MAX_X_POS_OFFSET : Nat := 6
def F11_CTRL_SENSOR_MAX_Y_POS_OFFSET : Nat := 8
def ENODEV : Int := 19

/-- The register bus collaborator: a byte read per address that may fail
with a negative error code, and a block write (whose failure
`rmi_f11_initialize` logs and ignores). -/
structure RmiBus where
  read : Nat → Except Int Nat
  blockWrite : Nat → List Nat → Except Int Unit

/-- `rmiBus->readBlock(addr, buf, len)`: `len` consecutive byte reads, the
whole block failing when any byte fails. -/
def readBlock (bus : RmiBus) (addr : Nat) : Nat → Except Int (List Nat)
  | 0 => Except.ok []
  | n + 1 =>
    (bus.read addr).bind fun b =>
      (readBlock bus (addr + 1) n).bind fun bs => Except.ok (b :: bs)

/-- One conditionally-present single-byte query block: when `gate` is set,
read one byte at `addr`, fold it into the record with `upd`, advance the
cursor; otherwise leave record and cursor unchanged.  This is the uniform
shape of the `if (...) { rc = rmiBus->read(...); ...; query_size++; }`
blocks of `rmi_f11_get_query_parameters`. -/
def queryStep (bus : RmiBus) (gate : Bool) (addr : Nat)
    (upd : Nat → F11SensorQuery → F11SensorQuery) (sq : F11SensorQuery)
    (qs : Nat) : Except Int (F11SensorQuery × Nat) :=
  if gate then (bus.read addr).bind fun b => Except.ok (upd b sq, qs + 1)
  else Except.ok (sq, qs)

/-- Query 5 (absolute sub-features, F11.cpp lines 290-309). -/
def f11_query5_update (b : Nat) (sq : F11SensorQuery) : F11SensorQuery :=
  { sq with
    abs_data_size := b &&& RMI_F11_ABS_DATA_SIZE_MASK
    has_anchored_finger := (b &&& RMI_F11_HAS_ANCHORED_FINGER) != 0
    has_adj_hyst := (b &&& RMI_F11_HAS_ADJ_HYST) != 0
    has_dribble := (b &&& RMI_F11_HAS_DRIBBLE) != 0
    has_bending_correction := (b &&& RMI_F11_HAS_BENDING_CORRECTION) != 0
    has_large_object_suppression :=
      (b &&& RMI_F11_HAS_LARGE_OBJECT_SUPPRESSION) != 0
    has_jitter_filter := (b &&& RMI_F11_HAS_JITTER_FILTER) != 0 }

/-- Query 6 (relative, stored opaque, lines 327-333). -/
def f11_query6_update (b : Nat) (sq : F11SensorQuery) : F11SensorQuery :=
  { sq with f11_2d_query6 := b }

/-- Queries 7 and 8 (gesture sub-features, lines 341-377). -/
def f11_gesture_update (b0 b1 : Nat) (sq : F11SensorQuery) : F11SensorQuery :=
  { sq with
    has_single_tap := (b0 &&& RMI_F11_HAS_SINGLE_TAP) != 0
    has_tap_n_hold := (b0 &&& RMI_F11_HAS_TAP_AND_HOLD) != 0
    has_double_tap := (b0 &&& RMI_F11_HAS_DOUBLE_TAP) != 0
    has_early_tap := (b0 &&& RMI_F11_HAS_EARLY_TAP) != 0
    has_flick := (b0 &&& RMI_F11_HAS_FLICK) != 0
    has_press := (b0 &&& RMI_F11_HAS_PRESS) != 0
    has_pinch := (b0 &&& RMI_F11_HAS_PINCH) != 0
    has_chiral := (b0 &&& RMI_F11_HAS_CHIRAL) != 0
    has_palm_det := (b1 &&& RMI_F11_HAS_PALM_DET) != 0
    has_rotate := (b1 &&& RMI_F11_HAS_ROTATE) != 0
    has_touch_shapes := (b1 &&& RMI_F11_HAS_TOUCH_SHAPES) != 0
    has_scroll_zones := (b1 &&& RMI_F11_HAS_SCROLL_ZONES) != 0
    has_individual_scroll_zones :=
      (b1 &&& RMI_F11_HAS_INDIVIDUAL_SCROLL_ZONES) != 0
    has_mf_scroll := (b1 &&& RMI_F11_HAS_MF_SCROLL) != 0
    has_mf_edge_motion := (b1 &&& RMI_F11_HAS_MF_EDGE_MOTION) != 0
    has_mf_scroll_inertia := (b1 &&& RMI_F11_HAS_MF_SCROLL_INERTIA) != 0
    query7_nonzero := b0 != 0
    query8_nonzero := b1 != 0 }

/-- Query 9 (pen/proximity sub-features, lines 403-423). -/
def f11_query9_update (b : Nat) (sq : F11SensorQuery) : F11SensorQuery :=
  { sq with
    has_pen := (b &&& RMI_F11_HAS_PEN) != 0
    has_proximity := (b &&& RMI_F11_HAS_PROXIMITY) != 0
    has_palm_det_sensitivity := (b &&& RMI_F11_HAS_PALM_DET_SENSITIVITY) != 0
    has_suppress_on_palm_detect :=
      (b &&& RMI_F11_HAS_SUPPRESS_ON_PALM_DETECT) != 0
    has_two_pen_thresholds := (b &&& RMI_F11_HAS_TWO_PEN_THRESHOLDS) != 0
    has_contact_geometry := (b &&& RMI_F11_HAS_CONTACT_GEOMETRY) != 0
    has_pen_hover_discrimination :=
      (b &&& RMI_F11_HAS_PEN_HOVER_DISCRIMINATION) != 0
    has_pen_filters := (b &&& RMI_F11_HAS_PEN_FILTERS) != 0 }

/-- Touch-shape count (lines 441-447). -/
def f11_touch_shapes_update (b : Nat) (sq : F11SensorQuery) : F11SensorQuery :=
  { sq with nr_touch_shapes := b &&& RMI_F11_NR_TOUCH_SHAPES_MASK }

/-- Query 11 (tuning sub-features, lines 454-475). -/
def f11_query11_update (b : Nat) (sq : F11SensorQuery) : F11SensorQuery :=
  { sq with
    has_z_tuning := (b &&& RMI_F11_HAS_Z_TUNING) != 0
    has_algorithm_selection := (b &&& RMI_F11_HAS_ALGORITHM_SELECTION) != 0
    has_w_tuning := (b &&& RMI_F11_HAS_W_TUNING) != 0
    has_pitch_info := (b &&& RMI_F11_HAS_PITCH_INFO) != 0
    has_finger_size := (b &&& RMI_F11_HAS_FINGER_SIZE) != 0
    has_segmentation_aggressiveness :=
      (b &&& RMI_F11_HAS_SEGMENTATION_AGGRESSIVENESS) != 0
    has_XY_clip := (b &&& RMI_F11_HAS_XY_CLIP) != 0
    has_drumming_filter := (b &&& RMI_F11_HAS_DRUMMING_FILTER) != 0 }

/-- Query 12 (second tuning set, lines 492-512). -/
def f11_query12_update (b : Nat) (sq : F11SensorQuery) : F11SensorQuery :=
  { sq with
    has_gapless_finger := (b &&& RMI_F11_HAS_GAPLESS_FINGER) != 0
    has_gapless_finger_tuning :=
      (b &&& RMI_F11_HAS_GAPLESS_FINGER_TUNING) != 0
    has_8bit_w := (b &&& RMI_F11_HAS_8BIT_W) != 0
    has_adjustable_mapping := (b &&& RMI_F11_HAS_ADJUSTABLE_MAPPING) != 0
    has_info2 := (b &&& RMI_F11_HAS_INFO2) != 0
    has_physical_props := (b &&& RMI_F11_HAS_PHYSICAL_PROPS) != 0
    has_finger_limit := (b &&& RMI_F11_HAS_FINGER_LIMIT) != 0
    has_linear_coeff_2 := (b &&& RMI_F11_HAS_LINEAR_COEFF) != 0 }

/-- Jitter filter block (lines 529-538). -/
def f11_jitter_update (b : Nat) (sq : F11SensorQuery) : F11SensorQuery :=
  { sq with
    jitter_window_size := b &&& RMI_F11_JITTER_WINDOW_MASK
    jitter_filter_type :=
      (b &&& RMI_F11_JITTER_FILTER_MASK) >>> RMI_F11_JITTER_FILTER_SHIFT }

/-- Info2 block (lines 553-569). -/
def f11_info2_update (b : Nat) (sq : F11SensorQuery) : F11SensorQuery :=
  { sq with
    light_control := b &&& RMI_F11_LIGHT_CONTROL_MASK
    is_clear := (b &&& RMI_F11_IS_CLEAR) != 0
    clickpad_props :=
      (b &&& RMI_F11_CLICKPAD_PROPS_MASK) >>> RMI_F11_CLICKPAD_PROPS_SHIFT
    mouse_buttons :=
      (b &&& RMI_F11_MOUSE_BUTTONS_MASK) >>> RMI_F11_MOUSE_BUTTONS_SHIFT
    has_advanced_gestures := (b &&& RMI_F11_HAS_ADVANCED_GESTURES) != 0 }

/-- The physical-properties block (lines 589-615): read 4 bytes — two
little-endian 16-bit sensor sizes in tenths of millimetres, stored divided
by 10 — then advance the cursor by 12 in total (`query_size += 12`, covering
queries 15-18, the size just read, and 19-26, the undecoded bezel bytes). -/
def f11_physical_props_step (bus : RmiBus) (sq : F11SensorQuery)
    (base qs : Nat) : Except Int (F11SensorQuery × Nat) :=
  if sq.has_physical_props then
    (readBlock bus (base + qs) 4).bind fun b =>
      Except.ok
        ({ sq with
          x_sensor_size_mm := (b.getD 0 0 ||| (b.getD 1 0 <<< 8)) / 10
          y_sensor_size_mm := (b.getD 2 0 ||| (b.getD 3 0 <<< 8)) / 10 },
         qs + 12)
  else Except.ok (sq, qs)

/-- `F11::rmi_f11_get_query_parameters` (F11.cpp lines 250-647): the
flag-gated query chain.  Returns the capability record, the cumulative
bytes consumed, and the advanced-coordinate-mode flag derived from query 36.
The `setProperty` diagnostics of the source (out-of-scope property
publishing) are not modelled. -/
def rmi_f11_get_query_parameters (bus : RmiBus)
    (hq9 hq11 hq12 hq27 hq28 : Bool) (query_base_addr : Nat) :
    Except Int (F11SensorQuery × Nat × Bool) :=
  (readBlock bus query_base_addr RMI_F11_QUERY_SIZE).bind fun qb =>
  let sq : F11SensorQuery :=
    { nr_fingers := qb.getD 0 0 &&& RMI_F11_NR_FINGERS_MASK
      has_rel := (qb.getD 0 0 &&& RMI_F11_HAS_REL) != 0
      has_abs := (qb.getD 0 0 &&& RMI_F11_HAS_ABS) != 0
      has_gestures := (qb.getD 0 0 &&& RMI_F11_HAS_GESTURES) != 0
      has_sensitivity_adjust :=
        (qb.getD 0 0 &&& RMI_F11_HAS_SENSITIVITY_ADJ) != 0
      configurable := (qb.getD 0 0 &&& RMI_F11_CONFIGURABLE) != 0
      nr_x_electrodes := qb.getD 1 0 &&& RMI_F11_NR_ELECTRODES_MASK
      nr_y_electrodes := qb.getD 2 0 &&& RMI_F11_NR_ELECTRODES_MASK
      max_electrodes := qb.getD 3 0 &&& RMI_F11_NR_ELECTRODES_MASK }
  (queryStep bus sq.has_abs (query_base_addr + RMI_F11_QUERY_SIZE)
    f11_query5_update sq RMI_F11_QUERY_SIZE).bind fun p =>
  (queryStep bus p.1.has_rel (query_base_addr + p.2)
    f11_query6_update p.1 p.2).bind fun p =>
  (if p.1.has_gestures then
    (readBlock bus (query_base_addr + p.2) RMI_F11_QUERY_GESTURE_SIZE).bind
      fun gb => Except.ok (f11_gesture_update (gb.getD 0 0) (gb.getD 1 0) p.1,
        p.2 + 2)
  else Except.ok p).bind fun p =>
  (queryStep bus hq9 (query_base_addr + p.2)
    f11_query9_update p.1 p.2).bind fun p =>
  (queryStep bus p.1.has_touch_shapes (query_base_addr + p.2)
    f11_touch_shapes_update p.1 p.2).bind fun p =>
  (queryStep bus hq11 (query_base_addr + p.2)
    f11_query11_update p.1 p.2).bind fun p =>
  (queryStep bus hq12 (query_base_addr + p.2)
    f11_query12_update p.1 p.2).bind fun p =>
  (queryStep bus p.1.has_jitter_filter (query_base_addr + p.2)
    f11_jitter_update p.1 p.2).bind fun p =>
  (queryStep bus p.1.has_info2 (query_base_addr + p.2)
    f11_info2_update p.1 p.2).bind fun p =>
  (f11_physical_props_step bus p.1 query_base_addr p.2).bind fun p =>
  let qs27 := if hq27 then p.2 + 1 else p.2
  (if hq28 then
    (bus.read (query_base_addr + qs27)).bind fun b =>
      Except.ok ((b &&& 64) != 0)
  else Except.ok false).bind fun has_query36 =>
  (if has_query36 then
    (bus.read (query_base_addr + (qs27 + 2))).bind fun b =>
      Except.ok (qs27 + 2, (b &&& 32) != 0)
  else Except.ok (qs27, false)).bind fun tail =>
  Except.ok (p.1, tail.1, tail.2)

/-- The outcome of a successful `rmi_f11_initialize`. -/
structure F11InitResult where
  sens_query : F11SensorQuery
  has_acm : Bool
  layout : RMI2DSensorLayout
  max_x : Nat
  max_y : Nat
  x_mm : Nat
  y_mm : Nat
  ctrl0_11 : List Nat
  deriving DecidableEq

/-- `F11::rmi_f11_initialize` (F11.cpp lines 649-746): read the first query
byte for the extended-query flags, run the query chain at the (u8-truncated)
offset `query_base_addr + 1`, reject devices without physical-size data or
absolute reporting with `-ENODEV`, read the max-X/max-Y control words,
compute the packet layout (the `IOMalloc` of the receive buffer is modelled
as always succeeding) with the ACM attention adjustment, read and adjust the
control registers (dribble off via `&= ~BIT(6)`, palm detection off via
`&= ~BIT(0)`), and write them back — a failed write is logged and ignored
(the source returns 0 regardless). -/
def rmi_f11_initialize (bus : RmiBus) (query_base_addr control_base_addr : Nat) :
    Except Int F11InitResult :=
  (bus.read query_base_addr).bind fun buf =>
  let hq9 := (buf &&& RMI_F11_HAS_QUERY9) != 0
  let hq11 := (buf &&& RMI_F11_HAS_QUERY11) != 0
  let hq12 := (buf &&& RMI_F11_HAS_QUERY12) != 0
  let hq27 := (buf &&& RMI_F11_HAS_QUERY27) != 0
  let hq28 := (buf &&& RMI_F11_HAS_QUERY28) != 0
  let query_offset := (query_base_addr + 1) % 256
  (rmi_f11_get_query_parameters bus hq9 hq11 hq12 hq27 hq28
    query_offset).bind fun r =>
  (if r.1.has_physical_props then
    Except.ok (r.1.x_sensor_size_mm, r.1.y_sensor_size_mm)
  else Except.error (-ENODEV)).bind fun xy =>
  (if !r.1.has_abs then Except.error (-ENODEV) else Except.ok ()).bind fun _ =>
  (readBlock bus (control_base_addr + F11_CTRL_SENSOR_MAX_X_POS_OFFSET)
    2).bind fun mx =>
  (readBlock bus (control_base_addr + F11_CTRL_SENSOR_MAX_Y_POS_OFFSET)
    2).bind fun my =>
  (readBlock bus control_base_addr RMI_F11_CTRL_REG_COUNT).bind fun ctrl0 =>
  let ctrl1 := if r.1.has_dribble then
      ctrl0.set 0 (ctrl0.getD 0 0 &&& 0xBF)
    else ctrl0
  let ctrl2 := if r.1.has_palm_det then
      ctrl1.set 11 (ctrl1.getD 11 0 &&& 0xFE)
    else ctrl1
  let _w := bus.blockWrite control_base_addr ctrl2
  Except.ok
    { sens_query := r.1
      has_acm := r.2.2
      layout := rmi_f11_layout r.1 r.2.2
      max_x := mx.getD 0 0 ||| (mx.getD 1 0 <<< 8)
      max_y := my.getD 0 0 ||| (my.getD 1 0 <<< 8)
      x_mm := xy.1
      y_mm := xy.2
      ctrl0_11 := ctrl2 }

-- Error-propagation lemmas for the Except-modelled bus operations.

theorem except_bind_ok {α β : Type} {x : Except Int α} {f : α → Except Int β}
    {b : β} (h : x.bind f = Except.ok b) : ∃ a, x = Except.ok a ∧ f a = Except.ok b := by
  cases x with
  | error e => simp [Except.bind] at h
  | ok a => exact ⟨a, rfl, h⟩

theorem except_bind_error {α β : Type} {x : Except Int α} {f : α → Except Int β}
    {e : Int} (h : x.bind f = Except.error e) :
    x = Except.error e ∨ ∃ a, x = Except.ok a ∧ f a = Except.error e := by
  cases x with
  | error e' =>
    left
    simp [Except.bind] at h
    rw [h]
  | ok a => exact Or.inr ⟨a, rfl, h⟩

/-- Some address's byte read failed with error `e`. -/
def ReadErr (bus : RmiBus) (e : Int) : Prop := ∃ a, bus.read a = Except.error e

theorem readBlock_error {bus : RmiBus} :
    ∀ {addr len : Nat} {e : Int}, readBlock bus addr len = Except.error e →
      ReadErr bus e := by
  intro addr len
  induction len generalizing addr with
  | zero =>
    intro e h
    simp [readBlock] at h
  | succ n ih =>
    intro e h
    rcases except_bind_error h with h | ⟨b, hb, h⟩
    · exact ⟨addr, h⟩
    rcases except_bind_error h with h | ⟨bs, hbs, h⟩
    · exact ih h
    · simp at h

theorem queryStep_error {bus : RmiBus} {gate : Bool} {addr : Nat}
    {upd : Nat → F11SensorQuery → F11SensorQuery} {sq : F11SensorQuery}
    {qs : Nat} {e : Int} (h : queryStep bus gate addr upd sq qs = Except.error e) :
    ReadErr bus e := by
  unfold queryStep at h
  split_ifs at h
  rcases except_bind_error h with h | ⟨b, hb, h⟩
  · exact ⟨addr, h⟩
  · simp at h

theorem physical_props_step_error {bus : RmiBus} {sq : F11SensorQuery}
    {base qs : Nat} {e : Int}
    (h : f11_physical_props_step bus sq base qs = Except.error e) :
    ReadErr bus e := by
  unfold f11_physical_props_step at h
  split_ifs at h
  rcases except_bind_error h with h | ⟨b, hb, h⟩
  · exact readBlock_error h
  · simp at h

theorem rmi_f11_get_query_parameters_error {bus : RmiBus}
    {hq9 hq11 hq12 hq27 hq28 : Bool} {base : Nat} {e : Int}
    (h : rmi_f11_get_query_parameters bus hq9 hq11 hq12 hq27 hq28 base =
      Except.error e) : ReadErr bus e := by
  unfold rmi_f11_get_query_parameters at h
  rcases except_bind_error h with h | ⟨qb, hqb, h⟩
  · exact readBlock_error h
  rcases except_bind_error h with h | ⟨p, hp, h⟩
  · exact queryStep_error h
  rcases except_bind_error h with h | ⟨p, hp, h⟩
  · exact queryStep_error h
  rcases except_bind_error h with h | ⟨p, hp, h⟩
  · split_ifs at h
    rcases except_bind_error h with h | ⟨gb, hgb, h⟩
    · exact readBlock_error h
    · simp at h
  rcases except_bind_error h with h | ⟨p, hp, h⟩
  · exact queryStep_error h
  rcases except_bind_error h with h | ⟨p, hp, h⟩
  · exact queryStep_error h
  rcases except_bind_error h with h | ⟨p, hp, h⟩
  · exact queryStep_error h
  rcases except_bind_error h with h | ⟨p, hp, h⟩
  · exact queryStep_error h
  rcases except_bind_error h with h | ⟨p, hp, h⟩
  · exact queryStep_error h
  rcases except_bind_error h with h | ⟨p, hp, h⟩
  · exact queryStep_error h
  rcases except_bind_error h with h | ⟨p, hp, h⟩
  · exact physical_props_step_error h
  rcases except_bind_error h with h | ⟨q36, hq36, h⟩
  · split_ifs at h
    all_goals rcases except_bind_error h with h | ⟨b, hb, h⟩
    all_goals first
    | exact ⟨_, h⟩
    | simp at h
  rcases except_bind_error h with h | ⟨tl, htl, h⟩
  · split_ifs at h
    all_goals rcases except_bind_error h with h | ⟨b, hb, h⟩
    all_goals first
    | exact ⟨_, h⟩
    | simp at h
  · simp at h

theorem rmi_f11_initialize_ok {bus : RmiBus} {qba cba : Nat} {r : F11InitResult}
    (h : rmi_f11_initialize bus qba cba = Except.ok r) :
    r.sens_query.has_abs = true ∧ r.sens_query.has_physical_props = true := by
  unfold rmi_f11_initialize at h
  rcases except_bind_ok h with ⟨buf, hbuf, h⟩
  rcases except_bind_ok h with ⟨rq, hrq, h⟩
  rcases except_bind_ok h with ⟨xy, hxy, h⟩
  rcases except_bind_ok h with ⟨u, hu, h⟩
  rcases except_bind_ok h with ⟨mx, hmx, h⟩
  rcases except_bind_ok h with ⟨my, hmy, h⟩
  rcases except_bind_ok h with ⟨ctrl0, hctrl, h⟩
  split_ifs at hxy with hprops
  split_ifs at hu with habs
  have h1 : rq.1.has_abs = true := by
    cases hab : rq.1.has_abs
    · rw [hab] at habs
      simp at habs
    · rfl
  simp only [Except.ok.injEq] at h
  subst h
  exact ⟨h1, hprops⟩

theorem rmi_f11_initialize_error {bus : RmiBus} {qba cba : Nat} {e : Int}
    (h : rmi_f11_initialize bus qba cba = Except.error e) :
    (∃ a, bus.read a = Except.error e) ∨ e = -ENODEV := by
  unfold rmi_f11_initialize at h
  rcases except_bind_error h with h | ⟨buf, hbuf, h⟩
  · exact Or.inl ⟨qba, h⟩
  rcases except_bind_error h with h | ⟨rq, hrq, h⟩
  · exact Or.inl (rmi_f11_get_query_parameters_error h)
  rcases except_bind_error h with h | ⟨xy, hxy, h⟩
  · split_ifs at h
    simp only [Except.error.injEq] at h
    exact Or.inr h.symm
  rcases except_bind_error h with h | ⟨u, hu, h⟩
  · split_ifs at h
    simp only [Except.error.injEq] at h
    exact Or.inr h.symm
  rcases except_bind_error h with h | ⟨mx, hmx, h⟩
  · exact Or.inl (readBlock_error h)
  rcases except_bind_error h with h | ⟨my, hmy, h⟩
  · exact Or.inl (readBlock_error h)
  rcases except_bind_error h with h | ⟨c0, hc0, h⟩
  · exact Or.inl (readBlock_error h)
  · simp at h

theorem rmi_f11_initialize_first_read {bus : RmiBus} {qba cba : Nat} {e : Int}
    (h : bus.read qba = Except.error e) :
    rmi_f11_initialize bus qba cba = Except.error e := by
  unfold rmi_f11_initialize
  rw [h]
  rfl

theorem rmi_f11_initialize_rejects {bus : RmiBus} {qba cba buf : Nat}
    {rq : F11SensorQuery × Nat × Bool}
    (hread : bus.read qba = Except.ok buf)
    (hq : rmi_f11_get_query_parameters bus ((buf &&& RMI_F11_HAS_QUERY9) != 0)
      ((buf &&& RMI_F11_HAS_QUERY11) != 0) ((buf &&& RMI_F11_HAS_QUERY12) != 0)
      ((buf &&& RMI_F11_HAS_QUERY27) != 0) ((buf &&& RMI_F11_HAS_QUERY28) != 0)
      ((qba + 1) % 256) = Except.ok rq)
    (hbad : rq.1.has_physical_props = false ∨ rq.1.has_abs = false) :
    rmi_f11_initialize bus qba cba = Except.error (-ENODEV) := by
  unfold rmi_f11_initialize
  rw [hread]
  simp only [Except.bind]
  rw [hq]
  simp only [Except.bind]
  rcases hbad with hb | hb
  · simp [hb, Except.bind]
  · by_cases hp : rq.1.has_physical_props = true
    · simp [hp, hb, Except.bind]
    · simp [hp, Except.bind]

/-- Claim C8: a failed register read at any point of the negotiation aborts
initialization with the read's error propagated (no partial record is
accepted: on error no result is produced at all), and a device whose
successfully-read record lacks absolute-position support or physical-size
data is rejected at initialization with `-ENODEV` (`UnsupportedDevice`)
before any decoding session starts.  Conjunct 1: success implies the record
has both absolute support and physical properties.  Conjunct 2: every error
is either some read's error propagated verbatim or the `-ENODEV` rejection.
Conjunct 3: a failing first read propagates its exact error.  Conjunct 4:
a record lacking physical properties or absolute support yields `-ENODEV`. -/
theorem claim_C8_failure_policy :
    (∀ (bus : RmiBus) (qba cba : Nat) (r : F11InitResult),
        rmi_f11_initialize bus qba cba = Except.ok r →
        r.sens_query.has_abs = true ∧ r.sens_query.has_physical_props = true)
    ∧ (∀ (bus : RmiBus) (qba cba : Nat) (e : Int),
        rmi_f11_initialize bus qba cba = Except.error e →
        (∃ a, bus.read a = Except.error e) ∨ e = -ENODEV)
    ∧ (∀ (bus : RmiBus) (qba cba : Nat) (e : Int),
        bus.read qba = Except.error e →
        rmi_f11_initialize bus qba cba = Except.error e)
    ∧ (∀ (bus : RmiBus) (qba cba buf : Nat) (rq : F11SensorQuery × Nat × Bool),
        bus.read qba = Except.ok buf →
        rmi_f11_get_query_parameters bus ((buf &&& RMI_F11_HAS_QUERY9) != 0)
          ((buf &&& RMI_F11_HAS_QUERY11) != 0)
          ((buf &&& RMI_F11_HAS_QUERY12) != 0)
          ((buf &&& RMI_F11_HAS_QUERY27) != 0)
          ((buf &&& RMI_F11_HAS_QUERY28) != 0) ((qba + 1) % 256) =
            Except.ok rq →
        rq.1.has_physical_props = false ∨ rq.1.has_abs = false →
        rmi_f11_initialize bus qba cba = Except.error (-ENODEV)) :=
  ⟨fun _ _ _ _ h => rmi_f11_initialize_ok h,
   fun _ _ _ _ h => rmi_f11_initialize_error h,
   fun _ _ _ _ h => rmi_f11_initialize_first_read h,
   fun _ _ _ _ _ hread hq hbad => rmi_f11_initialize_rejects hread hq hbad⟩

-- Projections for inspecting the result of the query negotiation.

/-- Bytes consumed by the query chain (the final `query_size` cursor). -/
def gqpConsumed (r : Except Int (F11SensorQuery × Nat × Bool)) : Option Nat :=
  match r with
  | Except.ok p => some p.2.1
  | Except.error _ => none

/-- Decoded X sensor size in whole millimeters. -/
def gqpXSensorSize (r : Except Int (F11SensorQuery × Nat × Bool)) : Option Nat :=
  match r with
  | Except.ok p => some p.1.x_sensor_size_mm
  | Except.error _ => none

/-- Decoded Y sensor size in whole millimeters. -/
def gqpYSensorSize (r : Except Int (F11SensorQuery × Nat × Bool)) : Option Nat :=
  match r with
  | Except.ok p => some p.1.y_sensor_size_mm
  | Except.error _ => none

/-- Decoded physical-properties flag. -/
def gqpHasPhysicalProps (r : Except Int (F11SensorQuery × Nat × Bool)) :
    Option Bool :=
  match r with
  | Except.ok p => some p.1.has_physical_props
  | Except.error _ => none

/-- A bus for a device whose query-12 byte advertises only physical
properties; the four size bytes at addresses 5–8 carry `b0 b1 b2 b3`,
everything else reads 0. -/
def c6PropsBus (b0 b1 b2 b3 : Nat) : RmiBus :=
  { read := fun a =>
      Except.ok (if a = 4 then RMI_F11_HAS_PHYSICAL_PROPS
        else if a = 5 then b0 else if a = 6 then b1
        else if a = 7 then b2 else if a = 8 then b3 else 0)
    blockWrite := fun _ _ => Except.ok () }

/-- A bus for a device with every optional query block absent. -/
def c6NoPropsBus : RmiBus :=
  { read := fun _ => Except.ok 0, blockWrite := fun _ _ => Except.ok () }

/-- Claim C6 counterexample: with only the physical-properties block gated
in, the cursor ends at 17 = 4 (base) + 1 (query 12) + 12, and with the
block absent it ends at 5, so the block advances the cursor by 12 bytes,
not by the claimed 16 (4 size bytes + 12 further skipped would end at 21). -/
theorem claim_C6_counterexample :
    gqpConsumed (rmi_f11_get_query_parameters (c6PropsBus 250 0 130 1)
      false false true false false 0) = some 17
    ∧ gqpConsumed (rmi_f11_get_query_parameters c6NoPropsBus
      false false true false false 0) = some 5
    ∧ (17 : Nat) = 5 + 12 ∧ (12 : Nat) ≠ 4 + 12 :=
  ⟨rfl, rfl, rfl, by decide⟩

set_option maxHeartbeats 1000000 in
/-- Claim C6 (amended): when physical properties are present the decoder
reads 4 bytes at the cursor yielding the two little-endian 16-bit sensor
sizes in tenths of a millimeter (X from the first pair, Y from the second,
both divided by 10 into whole millimeters), and advances the cursor by 12
bytes in total for this block (the 4 size bytes plus 8 further reserved
bytes), not 16; with the block absent the cursor does not move. -/
theorem claim_C6_physical_props_block (b0 b1 b2 b3 : Nat) :
    gqpHasPhysicalProps (rmi_f11_get_query_parameters (c6PropsBus b0 b1 b2 b3)
      false false true false false 0) = some true
    ∧ gqpXSensorSize (rmi_f11_get_query_parameters (c6PropsBus b0 b1 b2 b3)
      false false true false false 0) = some ((b0 ||| b1 <<< 8) / 10)
    ∧ gqpYSensorSize (rmi_f11_get_query_parameters (c6PropsBus b0 b1 b2 b3)
      false false true false false 0) = some ((b2 ||| b3 <<< 8) / 10)
    ∧ gqpConsumed (rmi_f11_get_query_parameters (c6PropsBus b0 b1 b2 b3)
      false false true false false 0) = some (5 + 12)
    ∧ gqpConsumed (rmi_f11_get_query_parameters c6NoPropsBus
      false false true false false 0) = some 5 := by
  have e1 : (0:Nat) &&& 2 = 0 := by decide
  have e2 : (0:Nat) &&& 4 = 0 := by decide
  have e3 : (0:Nat) &&& 8 = 0 := by decide
  have e4 : (0:Nat) &&& 7 = 0 := by decide
  have e5 : (0:Nat) &&& 16 = 0 := by decide
  have e6 : (0:Nat) &&& 32 = 0 := by decide
  have e7 : (0:Nat) &&& 127 = 0 := by decide
  have f1 : (32:Nat) &&& 1 = 0 := by decide
  have f2 : (32:Nat) &&& 2 = 0 := by decide
  have f3 : (32:Nat) &&& 4 = 0 := by decide
  have f4 : (32:Nat) &&& 8 = 0 := by decide
  have f5 : (32:Nat) &&& 16 = 0 := by decide
  have f6 : (32:Nat) &&& 32 = 32 := by decide
  have f7 : (32:Nat) &&& 64 = 0 := by decide
  have f8 : (32:Nat) &&& 128 = 0 := by decide
  refine ⟨?_, ?_, ?_, ?_, rfl⟩ <;>
    simp [gqpHasPhysicalProps, gqpXSensorSize, gqpYSensorSize, gqpConsumed,
      rmi_f11_get_query_parameters, queryStep, readBlock,
      f11_physical_props_step, f11_query12_update, c6PropsBus,
      Except.bind, RMI_F11_QUERY_SIZE, RMI_F11_NR_FINGERS_MASK, RMI_F11_HAS_REL,
      RMI_F11_HAS_ABS, RMI_F11_HAS_GESTURES, RMI_F11_HAS_SENSITIVITY_ADJ,
      RMI_F11_CONFIGURABLE, RMI_F11_NR_ELECTRODES_MASK,
      RMI_F11_HAS_GAPLESS_FINGER, RMI_F11_HAS_GAPLESS_FINGER_TUNING,
      RMI_F11_HAS_8BIT_W, RMI_F11_HAS_ADJUSTABLE_MAPPING, RMI_F11_HAS_INFO2,
      RMI_F11_HAS_PHYSICAL_PROPS, RMI_F11_HAS_FINGER_LIMIT,
      RMI_F11_HAS_LINEAR_COEFF, List.getD,
      e1, e2, e3, e4, e5, e6, e7, f1, f2, f3, f4, f5, f6, f7, f8]

/-- A bus whose every read fails with error −77. -/
def c8FailBus : RmiBus :=
  { read := fun _ => Except.error (-77), blockWrite := fun _ _ => Except.ok () }

/-- Claim C8 witness: the propagation conjunct applied at a concrete bus
whose first read fails with −77. -/
theorem claim_C8_witness :
    c8FailBus.read 100 = Except.error (-77) ∧
    rmi_f11_initialize c8FailBus 100 200 = Except.error (-77) :=
  ⟨rfl, claim_C8_failure_policy.2.2.1 c8FailBus 100 200 (-77) rfl⟩

end VoodooRMI
